import Mathlib

/-!
# mpc-qt main window controller: sizing, decoration state, speed, volume,
chapters and time display

A shallow embedding of `src/mainwindow.cpp`.

* C++ `double` values are IEEE 754 binary64 numbers and are represented by
  the rationals they denote.  A sum or a product of two of them is rounded to
  the nearest binary64 number, ties to even, by `roundDouble`, each operation
  on its own (no fused multiply-add).  Comparisons, `std::min`, `std::max`,
  the conversion of an `int` and the halving and doubling of a playback speed
  are exact on such numbers.  Not-a-number and infinities are outside the
  embedding: a rational beyond the finite range stands for itself.
* C++ `int` pixel counts, volumes and millisecond counts and the `int64_t`
  chapter number are represented by `Int`; wrap-around is not represented.
  The conversion of a `double` to `int` is defined by C++ only when the
  truncated value fits in 32 bits: `toIntOpt` is the conversion with that
  condition, `toInt` its value where it is defined.
* The controller object is the record `MainWindow`; every member function is
  a function `MainWindow → MainWindow`.  Calls made to the playback engine
  (`mpvw->...`) are appended to the log `mpvwCalls`; values the controller
  reads from the engine widget or from the toolkit are fields of the record.
* A signal emitted over a `Qt::QueuedConnection` appends one pending call to
  `eventQueue`; `processEvents` delivers the pending calls in order.  Slots
  connected by name run inside the call that emits their signal.
* What the absent form file decides about the hide-menu action (checkable,
  checked) is kept as two fields of the record.
-/

namespace MpcQt

/-! ## Values -/

/-- Conversion from `double` to `int` as done by C++: the fractional part is
discarded (truncation toward zero).  C++ defines the conversion only when the
result fits in an `int`, see `toIntOpt`. -/
def toInt (x : ℚ) : Int := Int.tdiv x.num x.den

/-- Conversion from `double` to `int` with its condition: the truncated value
must lie in the range of a 32-bit `int`, otherwise the behaviour of the C++
program is undefined and there is no result. -/
def toIntOpt (x : ℚ) : Option Int :=
  if -(2 ^ 31) - 1 < x ∧ x < 2 ^ 31 then some (toInt x) else none

/-- Auxiliary for `log2`: halving `n` until it is below 2, at most `fuel`
times. -/
def log2Fuel : Nat → Nat → Nat
  | 0, _ => 0
  | fuel + 1, n => if 2 ≤ n then log2Fuel fuel (n / 2) + 1 else 0

/-- The position of the leading binary digit of `n`, for `n` above zero: the
largest `k` with `2 ^ k ≤ n`. -/
def log2 (n : Nat) : Nat := log2Fuel n n

/-- The binade of a rational other than zero: the integer `e` with
`2 ^ e ≤ |x| < 2 ^ (e + 1)`. -/
def binade (x : ℚ) : Int :=
  if (2 : ℚ) ^ ((log2 x.num.natAbs : Int) - (log2 x.den : Int)) ≤ |x| then
    (log2 x.num.natAbs : Int) - (log2 x.den : Int)
  else (log2 x.num.natAbs : Int) - (log2 x.den : Int) - 1

/-- Rounding of a rational to the nearest integer, a tie going to the even
one. -/
def roundNearestEven (q : ℚ) : Int :=
  if q - ⌊q⌋ < 1 / 2 then ⌊q⌋
  else if 1 / 2 < q - ⌊q⌋ then ⌊q⌋ + 1
  else if ⌊q⌋ % 2 = 0 then ⌊q⌋ else ⌊q⌋ + 1

/-- The exponent of the unit in the last place of the binary64 numbers around
`x`: 52 below the binade for normal numbers (53 significant bits), never
below -1074 (subnormal numbers). -/
def ulpExponent (x : ℚ) : Int := max (binade x - 52) (-1074)

/-- Rounding to binary64, round-to-nearest, ties-to-even: the result of an
arithmetic operation on `double` whose exact value is `x`. -/
def roundDouble (x : ℚ) : ℚ :=
  if x = 0 then 0
  else roundNearestEven (x / 2 ^ ulpExponent x) * 2 ^ ulpExponent x

/-- The library function `std::min(a, b)`, which is `(b < a) ? b : a`. -/
def stdMin (a b : ℚ) : ℚ := if b < a then b else a

/-- The library function `std::max(a, b)`, which is `(a < b) ? b : a`. -/
def stdMax (a b : ℚ) : ℚ := if a < b then b else a

/-- Toolkit size: a width and a height in pixels. -/
structure QSize where
  width : Int
  height : Int
deriving DecidableEq, Repr

instance : Add QSize := ⟨fun a b => ⟨a.width + b.width, a.height + b.height⟩⟩

instance : Sub QSize := ⟨fun a b => ⟨a.width - b.width, a.height - b.height⟩⟩

/-- Toolkit rectangle, given as in the constructor `QRect(x, y, w, h)`. -/
structure QRect where
  x : Int
  y : Int
  w : Int
  h : Int
deriving DecidableEq, Repr

/-- The size of a rectangle, `QRect::size()`. -/
def QRect.size (r : QRect) : QSize := ⟨r.w, r.h⟩

/-- The toolkit function `QStyle::alignedRect(Qt::LeftToRight, Qt::AlignCenter,
size, rectangle)`: a rectangle of the given size centred in `rectangle`
(C++ integer division). -/
def alignedRect (size : QSize) (rectangle : QRect) : QRect :=
  { x := rectangle.x + (Int.tdiv rectangle.w 2 - Int.tdiv size.width 2)
    y := rectangle.y + (Int.tdiv rectangle.h 2 - Int.tdiv size.height 2)
    w := size.width
    h := size.height }

/-- The enumeration `MainWindow::DecorationState`, in declaration order. -/
inductive DecorationState
  | AllDecorations
  | NoMenu
  | NoDecorations
deriving DecidableEq, Repr

/-- The conversion `static_cast<int>(state)`, used as an array index. -/
def DecorationState.toIndex : DecorationState → Fin 3
  | AllDecorations => 0
  | NoMenu => 1
  | NoDecorations => 2

/-- The window flags named in `setUiDecorationState`. -/
inductive WindowFlag
  | Window
  | WindowTitleHint
  | WindowSystemMenuHint
  | WindowMinMaxButtonsHint
  | WindowCloseButtonHint
  | FramelessWindowHint
deriving DecidableEq, Repr

/-- Text shown on screen by `mpvw->showMessage`: the format string together
with the number substituted for `%1`. -/
inductive Message
  | speed (value : ℚ)
  | volume (value : Int)
deriving DecidableEq, Repr

/-- Calls made by the controller to the playback engine widget `mpvw`. -/
inductive MpvCall
  | setSpeed (speed : ℚ)
  | setVolume (volume : Int)
  | showMessage (message : Message)
  | setChapter (chapter : Int)
  | stopPlayback
deriving DecidableEq, Repr

/-- A call posted to the event loop by a signal connected with
`Qt::QueuedConnection`; `setupSizing` makes one such connection, from
`fireUpdateSize` to `sendUpdateSize`. -/
inductive QueuedCall
  | sendUpdateSize
deriving DecidableEq, Repr

/-! ## The controller state -/

/-- The state of the main window controller: the member variables of the C++
class, the state of the widgets it shows and hides, what it reads from the
toolkit and the engine widget, and the calls it has issued. -/
structure MainWindow where
  /-- member `fullscreenMode_` -/
  fullscreenMode_ : Bool
  /-- member `isPlaying_` -/
  isPlaying_ : Bool
  /-- member `isPaused_` -/
  isPaused_ : Bool
  /-- member `playbackSpeed_` -/
  playbackSpeed_ : ℚ
  /-- member `sizeFactor_` -/
  sizeFactor_ : ℚ
  /-- member `noVideoSize_` -/
  noVideoSize_ : QSize
  /-- member `decorationState_` -/
  decorationState_ : DecorationState
  /-- visibility of `menuBar()` -/
  menuBarVisible : Bool
  /-- visibility of `ui->controlSection` -/
  controlSectionVisible : Bool
  /-- visibility of `ui->infoSection` -/
  infoSectionVisible : Bool
  /-- visibility of `ui->seekbar` -/
  seekbarVisible : Bool
  /-- visibility of `ui->controlbar` -/
  controlbarVisible : Bool
  /-- visibility of `ui->infoStats` -/
  infoStatsVisible : Bool
  /-- visibility of `ui->statusbar` -/
  statusbarVisible : Bool
  /-- text of the label `ui->status` -/
  statusText : String
  /-- whether `ui->actionViewHideMenu` is a checkable action (set in the form
  file); `setChecked` does nothing on an action that is not -/
  actionViewHideMenuCheckable : Bool
  /-- checked state of `ui->actionViewHideMenu` -/
  actionViewHideMenuChecked : Bool
  /-- checked state of `ui->actionViewHideSeekbar` -/
  actionViewHideSeekbarChecked : Bool
  /-- checked state of `ui->actionViewHideControls` -/
  actionViewHideControlsChecked : Bool
  /-- checked state of `ui->actionViewHideInformation` -/
  actionViewHideInformationChecked : Bool
  /-- checked state of `ui->actionViewHideStatistics` -/
  actionViewHideStatisticsChecked : Bool
  /-- checked state of `ui->actionViewHideStatus` -/
  actionViewHideStatusChecked : Bool
  /-- checked state of `ui->actionViewHideSubresync` -/
  actionViewHideSubresyncChecked : Bool
  /-- checked state of `ui->actionViewHideCapture` -/
  actionViewHideCaptureChecked : Bool
  /-- checked state of `ui->actionViewHideNavigation` -/
  actionViewHideNavigationChecked : Bool
  /-- display text of `ui->actionViewHideMenu` -/
  actionViewHideMenuText : String
  /-- flags last passed to `setWindowFlags` -/
  windowFlags : List WindowFlag
  /-- whether the window is shown -/
  windowVisible : Bool
  /-- toolkit window state, `isMaximized()` -/
  maximized : Bool
  /-- toolkit window state, `isFullScreen()` -/
  fullScreen : Bool
  /-- window geometry, as set by `setGeometry` -/
  geometry : QRect
  /-- value of `volumeSlider_`, a `double` -/
  volumeSliderValue : ℚ
  /-- engine widget: `mpvw->videoSize()` -/
  mpvwVideoSize : QSize
  /-- engine widget: `mpvw->size()`, the current video-area size -/
  mpvwSize : QSize
  /-- engine widget: `mpvw->chapter()`, the current chapter -/
  mpvwChapter : Int
  /-- calls issued to the engine widget, oldest first -/
  mpvwCalls : List MpvCall
  /-- `desktop->availableGeometry(desktop->screenNumber(QCursor::pos()))` -/
  availableGeometryAtCursor : QRect
  /-- `desktop->availableGeometry(this)` -/
  availableGeometryOfWindow : QRect
  /-- calls posted through queued connections and not yet delivered -/
  eventQueue : List QueuedCall
  /-- number of calls of `ui->infoSection->layout()->update()` so far -/
  infoSectionLayoutUpdates : Nat
  /-- instrumentation: number of executions of `updateSize` so far -/
  updateSizeRuns : Nat
deriving DecidableEq, Repr

namespace MainWindow

/-- The window size `size()`: the size of the window geometry. -/
def size (s : MainWindow) : QSize := s.geometry.size

/-- Accessor `sizeFactor()`. -/
def sizeFactor (s : MainWindow) : ℚ := s.sizeFactor_

/-- Accessor `fullscreenMode()`. -/
def fullscreenMode (s : MainWindow) : Bool := s.fullscreenMode_

/-- Toolkit query `isMaximized()`. -/
def isMaximized (s : MainWindow) : Bool := s.maximized

/-- Accessor `isPlaying()`. -/
def isPlaying (s : MainWindow) : Bool := s.isPlaying_

/-- Accessor `noVideoSize()`. -/
def noVideoSize (s : MainWindow) : QSize := s.noVideoSize_

/-- Accessor `playbackSpeed()`. -/
def playbackSpeed (s : MainWindow) : ℚ := s.playbackSpeed_

/-- Accessor `decorationState()`. -/
def decorationState (s : MainWindow) : DecorationState := s.decorationState_

/-- Toolkit call `setGeometry(rect)`. -/
def setGeometry (rect : QRect) (s : MainWindow) : MainWindow :=
  { s with geometry := rect }

/-! ## `updateSize` -/

/-- The guard of `updateSize`:
`sizeFactor() <= 0 || fullscreenMode() || isMaximized()`. -/
def updateSizeSkips (s : MainWindow) : Bool :=
  decide (s.sizeFactor ≤ 0) || s.fullscreenMode || s.isMaximized

/-- Local `player` of `updateSize`:
`isPlaying() ? mpvw->videoSize() : noVideoSize()`. -/
def player (s : MainWindow) : QSize :=
  if s.isPlaying then s.mpvwVideoSize else s.noVideoSize

/-- Local `factor` of `updateSize`:
`isPlaying() ? sizeFactor() : std::max(1.0, sizeFactor())`. -/
def factor (s : MainWindow) : ℚ :=
  if s.isPlaying then s.sizeFactor else stdMax 1 s.sizeFactor

/-- The argument `n*factor + 0.5` of the constructor call below, as the
`double` it is: the `int` is converted exactly, the product is rounded, the
sum is rounded. -/
def scaledLength (n : Int) (f : ℚ) : ℚ :=
  roundDouble (roundDouble (n * f) + 1 / 2)

/-- The constructor call `QSize(w*factor + 0.5, h*factor + 0.5)`: both
arguments are `double` and are converted to `int`.  Where C++ leaves a
conversion undefined (`toIntOpt` has no value) the truncated value stands in;
statements on the value of the wanted size carry the range condition. -/
def scaledSize (base : QSize) (f : ℚ) : QSize :=
  ⟨toInt (scaledLength base.width f), toInt (scaledLength base.height f)⟩

/-- Local `wanted` of `updateSize`. -/
def wanted (s : MainWindow) : QSize := scaledSize s.player s.factor

/-- Local `desired` of `updateSize`: `wanted + window - current` with
`current = mpvw->size()` and `window = size()`. -/
def desired (s : MainWindow) : QSize := s.wanted + s.size - s.mpvwSize

/-- The member function `updateSize(bool first_run)`. -/
def updateSize (first_run : Bool) (s : MainWindow) : MainWindow :=
  let s := { s with updateSizeRuns := s.updateSizeRuns + 1 }
  if s.updateSizeSkips then
    { s with infoSectionLayoutUpdates := s.infoSectionLayoutUpdates + 1 }
  else if first_run then
    s.setGeometry (alignedRect s.desired s.availableGeometryAtCursor)
  else
    s.setGeometry (alignedRect s.desired s.availableGeometryOfWindow)

/-! ## Queued resize requests -/

/-- The slot `sendUpdateSize()`: calls `updateSize()` (`first_run` false). -/
def sendUpdateSize (s : MainWindow) : MainWindow := s.updateSize false

/-- Emission of the signal `fireUpdateSize()`.  Its only connection is the
queued one made in `setupSizing`, so an emission runs no slot: it posts one
call of `sendUpdateSize` to the event loop. -/
def fireUpdateSize (s : MainWindow) : MainWindow :=
  { s with eventQueue := s.eventQueue ++ [QueuedCall.sendUpdateSize] }

/-- Delivery of one posted call to its slot. -/
def deliver : QueuedCall → MainWindow → MainWindow
  | QueuedCall.sendUpdateSize, s => s.sendUpdateSize

/-- Delivery of a list of posted calls, oldest first. -/
def deliverAll : List QueuedCall → MainWindow → MainWindow
  | [], s => s
  | c :: cs, s => deliverAll cs (deliver c s)

/-- One turn of the event loop: every call pending in the queue is taken out
and delivered.  (No slot reached from here posts a further call.) -/
def processEvents (s : MainWindow) : MainWindow :=
  deliverAll s.eventQueue { s with eventQueue := [] }

/-! ## Decoration state -/

/-- Local array `actionTexts` of `setUiDecorationState`. -/
def actionTexts : Fin 3 → String :=
  ![ "Hide &Menu", "Hide &Borders", "Sho&w Caption and Menu" ]

/-- Local `defaults` of `setUiDecorationState`. -/
def defaults : List WindowFlag :=
  [ WindowFlag.Window, WindowFlag.WindowTitleHint,
    WindowFlag.WindowSystemMenuHint, WindowFlag.WindowMinMaxButtonsHint,
    WindowFlag.WindowCloseButtonHint ]

/-- Local array `winFlags` of `setUiDecorationState`. -/
def winFlags : Fin 3 → List WindowFlag :=
  ![ defaults, defaults, [ WindowFlag.Window, WindowFlag.FramelessWindowHint ] ]

/-- The member function `setUiDecorationState(state)`. -/
def setUiDecorationState (state : DecorationState) (s : MainWindow) :
    MainWindow :=
  let s :=
    if state = DecorationState.AllDecorations then
      { s with menuBarVisible := true }
    else
      { s with menuBarVisible := false }
  let s := { s with actionViewHideMenuText := actionTexts state.toIndex }
  let s := { s with windowFlags := winFlags state.toIndex }
  let s := { s with decorationState_ := state }
  { s with windowVisible := true }

/-- Local array `nextState` of `on_actionViewHideMenu_triggered`. -/
def nextState : Fin 3 → DecorationState :=
  ![ DecorationState.NoMenu, DecorationState.NoDecorations,
     DecorationState.AllDecorations ]

/-- The slot `on_actionViewHideMenu_triggered()`, the cycle action. -/
def on_actionViewHideMenu_triggered (s : MainWindow) : MainWindow :=
  if s.fullscreenMode_ then
    s
  else
    let s := s.setUiDecorationState (nextState s.decorationState_.toIndex)
    s.fireUpdateSize

/-! ## Fullscreen -/

/-- Toolkit call `showFullScreen()`: the window state becomes full screen
(and no longer maximized) and the window is shown. -/
def showFullScreen (s : MainWindow) : MainWindow :=
  { s with fullScreen := true, maximized := false, windowVisible := true }

/-- Toolkit call `showNormal()`: the window state loses the maximized and
full-screen states and the window is shown. -/
def showNormal (s : MainWindow) : MainWindow :=
  { s with fullScreen := false, maximized := false, windowVisible := true }

/-- The member function `setFullscreenMode(bool)`. -/
def setFullscreenMode (fullscreenMode : Bool) (s : MainWindow) : MainWindow :=
  let s := { s with fullscreenMode_ := fullscreenMode }
  if fullscreenMode then s.showFullScreen else s.showNormal

/-- The slot `on_actionViewFullscreen_toggled(bool checked)`. -/
def on_actionViewFullscreen_toggled (checked : Bool) (s : MainWindow) :
    MainWindow :=
  let s := s.setFullscreenMode checked
  if checked then
    { s with menuBarVisible := false, controlSectionVisible := false,
             infoSectionVisible := false }
  else
    let s :=
      if s.actionViewHideMenuChecked then { s with menuBarVisible := true }
      else s
    { s with controlSectionVisible := true, infoSectionVisible := true }

/-! ## Playback speed -/

/-- The member function `setPlaybackSpeed(double speed)`. -/
def setPlaybackSpeed (speed : ℚ) (s : MainWindow) : MainWindow :=
  let s := { s with playbackSpeed_ := stdMax (1 / 8) (stdMin 8 speed) }
  let s := { s with mpvwCalls := s.mpvwCalls ++ [MpvCall.setSpeed speed] }
  { s with mpvwCalls :=
      s.mpvwCalls ++ [MpvCall.showMessage (Message.speed speed)] }

/-- The slot `on_actionPlayRateDecrease_triggered()`. -/
def on_actionPlayRateDecrease_triggered (s : MainWindow) : MainWindow :=
  s.setPlaybackSpeed (s.playbackSpeed / 2)

/-- The slot `on_actionPlayRateIncrease_triggered()`. -/
def on_actionPlayRateIncrease_triggered (s : MainWindow) : MainWindow :=
  s.setPlaybackSpeed (s.playbackSpeed * 2)

/-! ## Volume -/

/-- Accessor `isPaused()`. -/
def isPaused (s : MainWindow) : Bool := s.isPaused_

/-- The member function `setPlaying(bool yes)`. -/
def setPlaying (yes : Bool) (s : MainWindow) : MainWindow :=
  { s with isPlaying_ := yes }

/-- The member function `updatePlaybackStatus()`. -/
def updatePlaybackStatus (s : MainWindow) : MainWindow :=
  { s with statusText :=
      if s.isPlaying then (if s.isPaused then "Paused" else "Playing")
      else "Stopped" }

/-- The member function `doMpvStopPlayback(bool dry_run)`. -/
def doMpvStopPlayback (dry_run : Bool) (s : MainWindow) : MainWindow :=
  let s :=
    if !dry_run then
      { s with mpvwCalls := s.mpvwCalls ++ [MpvCall.stopPlayback] }
    else s
  let s := s.setPlaying false
  let s := s.updatePlaybackStatus
  s.updateSize false

/-- The slot `on_actionNavigateChaptersNext_triggered()`.  The value returned
by the engine for `mpvw->setChapter(chapter)` is the argument
`setChapterResult`; the chapter number is an `int64_t`, taken without
wrap-around. -/
def on_actionNavigateChaptersNext_triggered (setChapterResult : Bool)
    (s : MainWindow) : MainWindow :=
  let chapter := s.mpvwChapter
  let chapter := chapter + 1
  let s := { s with mpvwCalls := s.mpvwCalls ++ [MpvCall.setChapter chapter] }
  if !setChapterResult then s.doMpvStopPlayback false else s

/-! ## View toggles and presets

The slots `on_<action>_toggled` are connected by name to the `toggled` signal
of their action, directly.  `setChecked(b)` on a checkable action whose
checked state differs from `b` stores `b` and emits `toggled(b)`, so the slot
runs inside the call; otherwise it does nothing.  The calls
`adjustSize()` change no state that is represented here. -/

/-- The slot `on_actionViewHideSeekbar_toggled(bool checked)`. -/
def on_actionViewHideSeekbar_toggled (checked : Bool) (s : MainWindow) :
    MainWindow :=
  let s :=
    if checked then { s with seekbarVisible := true }
    else { s with seekbarVisible := false }
  s.fireUpdateSize

/-- The slot `on_actionViewHideControls_toggled(bool checked)`. -/
def on_actionViewHideControls_toggled (checked : Bool) (s : MainWindow) :
    MainWindow :=
  let s :=
    if checked then { s with controlbarVisible := true }
    else { s with controlbarVisible := false }
  s.fireUpdateSize

/-- The slot `on_actionViewHideInformation_toggled(bool checked)`. -/
def on_actionViewHideInformation_toggled (checked : Bool) (s : MainWindow) :
    MainWindow :=
  let s :=
    if checked then { s with infoStatsVisible := true }
    else { s with infoStatsVisible := false }
  s.fireUpdateSize

/-- The slot `on_actionViewHideStatistics_toggled(bool checked)`. -/
def on_actionViewHideStatistics_toggled (_checked : Bool) (s : MainWindow) :
    MainWindow :=
  s.fireUpdateSize

/-- The slot `on_actionViewHideStatus_toggled(bool checked)`. -/
def on_actionViewHideStatus_toggled (checked : Bool) (s : MainWindow) :
    MainWindow :=
  let s :=
    if checked then { s with statusbarVisible := true }
    else { s with statusbarVisible := false }
  s.fireUpdateSize

/-- The slot `on_actionViewHideSubresync_toggled(bool checked)`. -/
def on_actionViewHideSubresync_toggled (_checked : Bool) (s : MainWindow) :
    MainWindow :=
  s.fireUpdateSize

/-- The slot `on_actionViewHideCapture_toggled(bool checked)`. -/
def on_actionViewHideCapture_toggled (_checked : Bool) (s : MainWindow) :
    MainWindow :=
  s.fireUpdateSize

/-- The slot `on_actionViewHideNavigation_toggled(bool checked)`. -/
def on_actionViewHideNavigation_toggled (_checked : Bool) (s : MainWindow) :
    MainWindow :=
  s.fireUpdateSize

/-- The call `ui->actionViewHideMenu->setChecked(b)`; no slot is connected to
the `toggled` signal of this action. -/
def actionViewHideMenu_setChecked (b : Bool) (s : MainWindow) : MainWindow :=
  if s.actionViewHideMenuCheckable then { s with actionViewHideMenuChecked := b }
  else s

/-- The call `ui->actionViewHideSeekbar->setChecked(b)`. -/
def actionViewHideSeekbar_setChecked (b : Bool) (s : MainWindow) : MainWindow :=
  if s.actionViewHideSeekbarChecked = b then s
  else on_actionViewHideSeekbar_toggled b
    { s with actionViewHideSeekbarChecked := b }

/-- The call `ui->actionViewHideControls->setChecked(b)`. -/
def actionViewHideControls_setChecked (b : Bool) (s : MainWindow) :
    MainWindow :=
  if s.actionViewHideControlsChecked = b then s
  else on_actionViewHideControls_toggled b
    { s with actionViewHideControlsChecked := b }

/-- The call `ui->actionViewHideInformation->setChecked(b)`. -/
def actionViewHideInformation_setChecked (b : Bool) (s : MainWindow) :
    MainWindow :=
  if s.actionViewHideInformationChecked = b then s
  else on_actionViewHideInformation_toggled b
    { s with actionViewHideInformationChecked := b }

/-- The call `ui->actionViewHideStatistics->setChecked(b)`. -/
def actionViewHideStatistics_setChecked (b : Bool) (s : MainWindow) :
    MainWindow :=
  if s.actionViewHideStatisticsChecked = b then s
  else on_actionViewHideStatistics_toggled b
    { s with actionViewHideStatisticsChecked := b }

/-- The call `ui->actionViewHideStatus->setChecked(b)`. -/
def actionViewHideStatus_setChecked (b : Bool) (s : MainWindow) : MainWindow :=
  if s.actionViewHideStatusChecked = b then s
  else on_actionViewHideStatus_toggled b
    { s with actionViewHideStatusChecked := b }

/-- The call `ui->actionViewHideSubresync->setChecked(b)`. -/
def actionViewHideSubresync_setChecked (b : Bool) (s : MainWindow) :
    MainWindow :=
  if s.actionViewHideSubresyncChecked = b then s
  else on_actionViewHideSubresync_toggled b
    { s with actionViewHideSubresyncChecked := b }

/-- The call `ui->actionViewHideCapture->setChecked(b)`. -/
def actionViewHideCapture_setChecked (b : Bool) (s : MainWindow) : MainWindow :=
  if s.actionViewHideCaptureChecked = b then s
  else on_actionViewHideCapture_toggled b
    { s with actionViewHideCaptureChecked := b }

/-- The call `ui->actionViewHideNavigation->setChecked(b)`. -/
def actionViewHideNavigation_setChecked (b : Bool) (s : MainWindow) :
    MainWindow :=
  if s.actionViewHideNavigationChecked = b then s
  else on_actionViewHideNavigation_toggled b
    { s with actionViewHideNavigationChecked := b }

/-- The slot `on_actionViewPresetsMinimal_triggered()`. -/
def on_actionViewPresetsMinimal_triggered (s : MainWindow) : MainWindow :=
  let s := s.setUiDecorationState DecorationState.NoDecorations
  let s := s.actionViewHideSeekbar_setChecked false
  let s := s.actionViewHideControls_setChecked false
  let s := s.actionViewHideInformation_setChecked false
  let s := s.actionViewHideStatistics_setChecked false
  let s := s.actionViewHideStatus_setChecked false
  let s := s.actionViewHideSubresync_setChecked false
  let s := s.actionViewHideCapture_setChecked false
  s.actionViewHideNavigation_setChecked false

/-- The slot `on_actionViewPresetsCompact_triggered()`. -/
def on_actionViewPresetsCompact_triggered (s : MainWindow) : MainWindow :=
  let s := s.setUiDecorationState DecorationState.NoDecorations
  let s := s.actionViewHideMenu_setChecked true
  let s := s.actionViewHideSeekbar_setChecked true
  let s := s.actionViewHideControls_setChecked false
  let s := s.actionViewHideInformation_setChecked false
  let s := s.actionViewHideStatistics_setChecked false
  let s := s.actionViewHideStatus_setChecked false
  let s := s.actionViewHideSubresync_setChecked false
  let s := s.actionViewHideCapture_setChecked false
  s.actionViewHideNavigation_setChecked false

/-- The slot `on_actionViewPresetsNormal_triggered()`. -/
def on_actionViewPresetsNormal_triggered (s : MainWindow) : MainWindow :=
  let s := s.setUiDecorationState DecorationState.AllDecorations
  let s := s.actionViewHideMenu_setChecked true
  let s := s.actionViewHideSeekbar_setChecked true
  let s := s.actionViewHideControls_setChecked true
  let s := s.actionViewHideInformation_setChecked true
  let s := s.actionViewHideStatistics_setChecked false
  let s := s.actionViewHideStatus_setChecked true
  let s := s.actionViewHideSubresync_setChecked false
  let s := s.actionViewHideCapture_setChecked false
  s.actionViewHideNavigation_setChecked false

/-- The user actions on the window chrome: the cycle action, the three
presets, and the fullscreen toggle with the new checked state. -/
inductive ViewAction
  | cycle
  | presetMinimal
  | presetCompact
  | presetNormal
  | fullscreen (checked : Bool)
deriving DecidableEq, Repr

/-- The slot run by a user action. -/
def perform : ViewAction → MainWindow → MainWindow
  | ViewAction.cycle, s => s.on_actionViewHideMenu_triggered
  | ViewAction.presetMinimal, s => s.on_actionViewPresetsMinimal_triggered
  | ViewAction.presetCompact, s => s.on_actionViewPresetsCompact_triggered
  | ViewAction.presetNormal, s => s.on_actionViewPresetsNormal_triggered
  | ViewAction.fullscreen checked, s => s.on_actionViewFullscreen_toggled checked

/-- A sequence of user actions, performed from left to right. -/
def performAll : List ViewAction → MainWindow → MainWindow
  | [], s => s
  | a :: as, s => performAll as (perform a s)

/-- Whether an action is the cycle action or a preset, that is, not the
fullscreen toggle. -/
def ViewAction.isDecoration : ViewAction → Bool
  | ViewAction.fullscreen _ => false
  | _ => true

/-! ## Time display -/

/-- The toolkit function `QString::number(int)`: the decimal numeral. -/
def number (n : Int) : String := toString n

/-- The toolkit function `QString::arg(a, fieldWidth, fillChar)` as far as the
inserted text goes: `a` preceded by as many `fillChar` as it takes to reach
`fieldWidth` characters. -/
def argText (a : String) (fieldWidth : Nat) (fillChar : Char) : String :=
  String.mk (List.replicate (fieldWidth - a.length) fillChar) ++ a

/-- The four locals `hr`, `mn`, `se`, `fr` of `toDateFormat`. -/
structure DateFields where
  hr : Int
  mn : Int
  se : Int
  fr : Int
deriving DecidableEq, Repr

/-- The `double` value of the expression `time*1000 + 0.5` in
`toDateFormat`: the product is rounded, then the sum is rounded. -/
def dateCount (time : ℚ) : ℚ := roundDouble (roundDouble (time * 1000) + 1 / 2)

/-- Local `t` of `toDateFormat` after the first three lines:
`int t = time*1000 + 0.5; if (t < 0) t = 0;`.  There is no value when the
conversion to `int` is undefined. -/
def dateMillis (time : ℚ) : Option Int :=
  (toIntOpt (dateCount time)).map fun t => if t < 0 then 0 else t

/-- The locals `hr = t/3600000`, `mn = t/60000 % 60`, `se = t%60000 / 1000`,
`fr = t % 1000` of `toDateFormat` (C++ integer division and remainder). -/
def fieldsOfMillis (t : Int) : DateFields :=
  { hr := Int.tdiv t 3600000
    mn := Int.tmod (Int.tdiv t 60000) 60
    se := Int.tdiv (Int.tmod t 60000) 1000
    fr := Int.tmod t 1000 }

/-- The four locals of `toDateFormat` for a given time. -/
def dateFields (time : ℚ) : Option DateFields :=
  (dateMillis time).map fieldsOfMillis

/-- The return expression of `toDateFormat`: the pattern `%1:%2:%3.%4` filled
with `hr`, and with `mn`, `se` to width 2 and `fr` to width 3, fill
character `0`. -/
def DateFields.render (f : DateFields) : String :=
  number f.hr ++ ":" ++ argText (number f.mn) 2 '0' ++ ":"
    ++ argText (number f.se) 2 '0' ++ "." ++ argText (number f.fr) 3 '0'

/-- The static function `toDateFormat(double time)`; no result where the
conversion to `int` is undefined. -/
def toDateFormat (time : ℚ) : Option String :=
  (dateFields time).map DateFields.render

/-! ## A concrete state -/

/-- A concrete state: the members as the constructor and `setupVolumeSlider`
set them (not fullscreen, not playing, speed 1, size factor 1, placeholder
size 500 by 270, all decorations, volume 100; `setupMenu` hides `infoStats`),
with the hide-menu toggle checkable and checked and the other view toggles
matching the visibility of their panels, in a window of 520 by 400 whose
video area is 500 by 270, on a screen of 1920 by 1080. -/
def startState : MainWindow where
  fullscreenMode_ := false
  isPlaying_ := false
  isPaused_ := false
  playbackSpeed_ := 1
  sizeFactor_ := 1
  noVideoSize_ := ⟨500, 270⟩
  decorationState_ := DecorationState.AllDecorations
  menuBarVisible := true
  controlSectionVisible := true
  infoSectionVisible := true
  seekbarVisible := true
  controlbarVisible := true
  infoStatsVisible := false
  statusbarVisible := true
  statusText := "Stopped"
  actionViewHideMenuCheckable := true
  actionViewHideMenuChecked := true
  actionViewHideSeekbarChecked := true
  actionViewHideControlsChecked := true
  actionViewHideInformationChecked := false
  actionViewHideStatisticsChecked := false
  actionViewHideStatusChecked := true
  actionViewHideSubresyncChecked := false
  actionViewHideCaptureChecked := false
  actionViewHideNavigationChecked := false
  actionViewHideMenuText := "Hide &Menu"
  windowFlags := defaults
  windowVisible := true
  maximized := false
  fullScreen := false
  geometry := ⟨0, 0, 520, 400⟩
  volumeSliderValue := 100
  mpvwVideoSize := ⟨0, 0⟩
  mpvwSize := ⟨500, 270⟩
  mpvwChapter := 0
  mpvwCalls := []
  availableGeometryAtCursor := ⟨0, 0, 1920, 1080⟩
  availableGeometryOfWindow := ⟨0, 0, 1920, 1080⟩
  eventQueue := []
  infoSectionLayoutUpdates := 0
  updateSizeRuns := 0

/-- The state `startState` while a 101 by 51 video plays at size factor
1.5. -/
def playingState : MainWindow :=
  { startState with isPlaying_ := true, mpvwVideoSize := ⟨101, 51⟩,
                    sizeFactor_ := 3 / 2 }

/-- The state `playingState` with the menu bar and both panel sections
hidden, in a window of 510 by 300 whose video area is 490 by 170: the
difference between window and video area is again 20 by 130. -/
def playingStateBare : MainWindow :=
  { playingState with menuBarVisible := false, controlSectionVisible := false,
                      infoSectionVisible := false,
                      geometry := ⟨40, 30, 510, 300⟩, mpvwSize := ⟨490, 170⟩ }

/-- The state `startState` with size factor 0.5 (nothing is playing). -/
def idleHalfState : MainWindow := { startState with sizeFactor_ := 1 / 2 }

/-- The state `startState` in fullscreen mode. -/
def fullscreenState : MainWindow := { startState with fullscreenMode_ := true }

/-- The state `startState` with the given settings of the hide-menu action,
which come from the form file: whether it is checkable, and whether it is
checked. -/
def startStateWith (checkable checked : Bool) : MainWindow :=
  { startState with actionViewHideMenuCheckable := checkable,
                    actionViewHideMenuChecked := checked }

/-- The state `startState` while something plays, unpaused, at chapter 7;
the seekbar and the status bar have been hidden. -/
def chapterState : MainWindow :=
  { startState with isPlaying_ := true, statusText := "Playing",
                    mpvwChapter := 7, mpvwVideoSize := ⟨640, 360⟩,
                    seekbarVisible := false, statusbarVisible := false,
                    actionViewHideSeekbarChecked := false,
                    actionViewHideStatusChecked := false }

end MainWindow

/-! ## Rounding, as the specification words it -/

/-- Round-half-up of the specification: the nearest integer, a tie going to
the larger one. -/
def roundHalfUp (x : ℚ) : Int := ⌊x + 1 / 2⌋

/-! ## Lemmas on the value conversions -/

theorem toInt_of_nonneg (x : ℚ) (hx : 0 ≤ x) : toInt x = ⌊x⌋ := by
  unfold toInt
  rw [Rat.floor_def]
  exact Int.tdiv_eq_ediv (Rat.num_nonneg.mpr hx) (Int.ofNat_nonneg x.den)

theorem stdMin_eq_min (a b : ℚ) : stdMin a b = min a b := by
  unfold stdMin
  split_ifs with h
  · exact (min_eq_right h.le).symm
  · exact (min_eq_left (not_lt.mp h)).symm

theorem stdMax_eq_max (a b : ℚ) : stdMax a b = max a b := by
  unfold stdMax
  split_ifs with h
  · exact (max_eq_right h.le).symm
  · exact (max_eq_left (not_lt.mp h)).symm

theorem roundHalfUp_nearest (x : ℚ) :
    (roundHalfUp x : ℚ) - 1 / 2 ≤ x ∧ x < (roundHalfUp x : ℚ) + 1 / 2 := by
  unfold roundHalfUp
  have h1 := Int.floor_le (x + 1 / 2)
  have h2 := Int.lt_floor_add_one (x + 1 / 2)
  constructor <;> linarith

theorem log2Fuel_spec (fuel n : Nat) (hf : n ≤ fuel) (hn : 0 < n) :
    2 ^ log2Fuel fuel n ≤ n ∧ n < 2 ^ (log2Fuel fuel n + 1) := by
  induction fuel generalizing n with
  | zero => omega
  | succ k ih =>
    unfold log2Fuel
    split_ifs with h
    · have h2 := ih (n / 2) (by omega) (by omega)
      have e1 : 2 ^ (log2Fuel k (n / 2) + 1) = 2 * 2 ^ log2Fuel k (n / 2) := by
        rw [pow_succ]; ring
      have e2 : 2 ^ (log2Fuel k (n / 2) + 1 + 1)
          = 2 * 2 ^ (log2Fuel k (n / 2) + 1) := by
        rw [pow_succ]; ring
      constructor
      · rw [e1]; omega
      · rw [e2]; omega
    · have : n = 1 := by omega
      subst this
      simp

theorem log2_spec (n : Nat) (hn : 0 < n) :
    2 ^ log2 n ≤ n ∧ n < 2 ^ (log2 n + 1) :=
  log2Fuel_spec n n le_rfl hn

theorem binade_spec (x : ℚ) (hx : x ≠ 0) :
    (2 : ℚ) ^ binade x ≤ |x| ∧ |x| < (2 : ℚ) ^ (binade x + 1) := by
  have hN : 0 < x.num.natAbs := Int.natAbs_pos.mpr (Rat.num_ne_zero.mpr hx)
  have hD : 0 < x.den := x.den_pos
  obtain ⟨a1, a2⟩ := log2_spec _ hN
  obtain ⟨b1, b2⟩ := log2_spec _ hD
  have habs : |x| = (x.num.natAbs : ℚ) / (x.den : ℚ) := by
    conv_lhs => rw [← Rat.num_div_den x]
    rw [abs_div, Nat.abs_cast, Nat.cast_natAbs, Int.cast_abs]
  have a1q : (2 : ℚ) ^ log2 x.num.natAbs ≤ (x.num.natAbs : ℚ) := by exact_mod_cast a1
  have a2q : (x.num.natAbs : ℚ) < (2 : ℚ) ^ (log2 x.num.natAbs + 1) := by exact_mod_cast a2
  have b1q : (2 : ℚ) ^ log2 x.den ≤ (x.den : ℚ) := by exact_mod_cast b1
  have b2q : (x.den : ℚ) < (2 : ℚ) ^ (log2 x.den + 1) := by exact_mod_cast b2
  have hDq : (0 : ℚ) < (x.den : ℚ) := by exact_mod_cast hD
  have two : (2 : ℚ) ≠ 0 := by norm_num
  have elow : (2 : ℚ) ^ ((log2 x.num.natAbs : Int) - (log2 x.den : Int) - 1)
      = (2 : ℚ) ^ log2 x.num.natAbs / (2 : ℚ) ^ (log2 x.den + 1) := by
    rw [show ((log2 x.num.natAbs : Int) - (log2 x.den : Int) - 1)
        = (log2 x.num.natAbs : Int) - ((log2 x.den + 1 : Nat) : Int) by push_cast; ring]
    rw [zpow_sub₀ two, zpow_natCast, zpow_natCast]
  have ehigh : (2 : ℚ) ^ ((log2 x.num.natAbs : Int) - (log2 x.den : Int) + 1)
      = (2 : ℚ) ^ (log2 x.num.natAbs + 1) / (2 : ℚ) ^ log2 x.den := by
    rw [show ((log2 x.num.natAbs : Int) - (log2 x.den : Int) + 1)
        = ((log2 x.num.natAbs + 1 : Nat) : Int) - (log2 x.den : Int) by push_cast; ring]
    rw [zpow_sub₀ two, zpow_natCast, zpow_natCast]
  have hlow : (2 : ℚ) ^ ((log2 x.num.natAbs : Int) - (log2 x.den : Int) - 1) ≤ |x| := by
    rw [elow, habs]
    rw [div_le_div_iff₀ (by positivity) hDq]
    have : (2 : ℚ) ^ log2 x.num.natAbs * (x.den : ℚ)
        ≤ (x.num.natAbs : ℚ) * (2 : ℚ) ^ (log2 x.den + 1) := by
      have h1 : (2 : ℚ) ^ log2 x.num.natAbs * (x.den : ℚ)
          ≤ (x.num.natAbs : ℚ) * (x.den : ℚ) :=
        mul_le_mul_of_nonneg_right a1q hDq.le
      have h2 : (x.num.natAbs : ℚ) * (x.den : ℚ)
          ≤ (x.num.natAbs : ℚ) * (2 : ℚ) ^ (log2 x.den + 1) :=
        mul_le_mul_of_nonneg_left b2q.le (by positivity)
      exact h1.trans h2
    exact this
  have hhigh : |x| < (2 : ℚ) ^ ((log2 x.num.natAbs : Int) - (log2 x.den : Int) + 1) := by
    rw [ehigh, habs]
    rw [div_lt_div_iff₀ hDq (by positivity)]
    have h1 : (x.num.natAbs : ℚ) * (2 : ℚ) ^ log2 x.den
        < (2 : ℚ) ^ (log2 x.num.natAbs + 1) * (2 : ℚ) ^ log2 x.den :=
      mul_lt_mul_of_pos_right a2q (by positivity)
    have h2 : (2 : ℚ) ^ (log2 x.num.natAbs + 1) * (2 : ℚ) ^ log2 x.den
        ≤ (2 : ℚ) ^ (log2 x.num.natAbs + 1) * (x.den : ℚ) :=
      mul_le_mul_of_nonneg_left b1q (by positivity)
    exact lt_of_lt_of_le h1 h2
  unfold binade
  split_ifs with h
  · exact ⟨h, hhigh⟩
  · refine ⟨hlow, ?_⟩
    rw [show ((log2 x.num.natAbs : Int) - (log2 x.den : Int) - 1 + 1)
        = (log2 x.num.natAbs : Int) - (log2 x.den : Int) by ring]
    exact not_le.mp h


theorem roundNearestEven_le (q : ℚ) (n : Int) (h : q ≤ n) :
    roundNearestEven q ≤ n := by
  have hf : ⌊q⌋ ≤ n := by
    have h1 : (⌊q⌋ : ℚ) ≤ n := (Int.floor_le q).trans h
    exact_mod_cast h1
  unfold roundNearestEven
  split_ifs with h1 h2 h3
  · exact hf
  · have : (⌊q⌋ : ℚ) < n := by linarith
    have : ⌊q⌋ < n := by exact_mod_cast this
    omega
  · exact hf
  · have hq : (1 : ℚ) / 2 ≤ q - ⌊q⌋ := not_lt.mp h1
    have : (⌊q⌋ : ℚ) < n := by linarith
    have : ⌊q⌋ < n := by exact_mod_cast this
    omega

theorem roundDouble_nonpos (x : ℚ) (hx : x ≤ 0) : roundDouble x ≤ 0 := by
  unfold roundDouble
  split_ifs with h0
  · exact le_rfl
  · have hp : (0 : ℚ) < (2 : ℚ) ^ ulpExponent x := by positivity
    have hq : x / 2 ^ ulpExponent x ≤ ((0 : Int) : ℚ) := by
      simpa using div_nonpos_of_nonpos_of_nonneg hx hp.le
    have hr := roundNearestEven_le _ 0 hq
    have hrq : (roundNearestEven (x / 2 ^ ulpExponent x) : ℚ) ≤ 0 := by
      exact_mod_cast hr
    exact mul_nonpos_of_nonpos_of_nonneg hrq hp.le

theorem roundDouble_le_neg_half (x : ℚ) (hx : x ≤ -(1 / 2)) :
    roundDouble x ≤ -(1 / 2) := by
  have h0 : x ≠ 0 := by
    intro h
    rw [h] at hx
    norm_num at hx
  obtain ⟨hlow, hhigh⟩ := binade_spec x h0
  have habs : |x| = -x := abs_of_nonpos (by linarith)
  have hb : -1 ≤ binade x := by
    by_contra hc
    have hle : binade x + 1 ≤ -1 := by omega
    have : (2 : ℚ) ^ (binade x + 1) ≤ (2 : ℚ) ^ (-1 : Int) :=
      zpow_le_zpow_right₀ (by norm_num) hle
    have e : (2 : ℚ) ^ (-1 : Int) = 1 / 2 := by norm_num
    rw [e] at this
    rw [habs] at hhigh
    have h4 := lt_of_lt_of_le hhigh this
    linarith
  have he : ulpExponent x = binade x - 52 := by
    unfold ulpExponent
    omega
  have hp : (0 : ℚ) < (2 : ℚ) ^ (binade x - 52) := by positivity
  have hsplit : (2 : ℚ) ^ binade x
      = ((2 ^ 52 : Int) : ℚ) * (2 : ℚ) ^ (binade x - 52) := by
    have hb2 : binade x = (52 : Int) + (binade x - 52) := by ring
    conv_lhs => rw [hb2]
    rw [zpow_add₀ (by norm_num : (2 : ℚ) ≠ 0)]
    norm_num
  have hq : x / (2 : ℚ) ^ (binade x - 52) ≤ ((-(2 ^ 52) : Int) : ℚ) := by
    rw [div_le_iff₀ hp]
    push_cast
    rw [habs, hsplit] at hlow
    push_cast at hlow
    linarith
  have hr := roundNearestEven_le _ _ hq
  have hrq : (roundNearestEven (x / (2 : ℚ) ^ (binade x - 52)) : ℚ)
      ≤ ((-(2 ^ 52) : Int) : ℚ) := by exact_mod_cast hr
  unfold roundDouble
  rw [if_neg h0, he]
  have h1 : (roundNearestEven (x / (2 : ℚ) ^ (binade x - 52)) : ℚ)
        * (2 : ℚ) ^ (binade x - 52)
      ≤ ((-(2 ^ 52) : Int) : ℚ) * (2 : ℚ) ^ (binade x - 52) :=
    mul_le_mul_of_nonneg_right hrq hp.le
  have h2 : ((-(2 ^ 52) : Int) : ℚ) * (2 : ℚ) ^ (binade x - 52)
      = -(2 : ℚ) ^ binade x := by
    rw [hsplit]
    push_cast
    ring
  have h3 : (2 : ℚ) ^ (-1 : Int) ≤ (2 : ℚ) ^ binade x :=
    zpow_le_zpow_right₀ (by norm_num) hb
  have e : (2 : ℚ) ^ (-1 : Int) = 1 / 2 := by norm_num
  rw [e] at h3
  rw [h2] at h1
  exact h1.trans (by linarith)

theorem toIntOpt_eq_some (x : ℚ) (h1 : -(2 ^ 31) - 1 < x) (h2 : x < 2 ^ 31) :
    toIntOpt x = some (toInt x) := by
  simp [toIntOpt, h1, h2]

theorem toInt_nonpos (x : ℚ) (hx : x ≤ 0) : toInt x ≤ 0 := by
  unfold toInt
  have hn : 0 ≤ -x.num := by
    have := Rat.num_nonpos.mpr hx
    omega
  have h := Int.tdiv_nonneg hn (Int.ofNat_nonneg x.den)
  rw [Int.neg_tdiv] at h
  omega

namespace MainWindow

theorem updateSize_of_skips (first_run : Bool) (s : MainWindow)
    (h : s.updateSizeSkips = true) :
    s.updateSize first_run =
      { s with updateSizeRuns := s.updateSizeRuns + 1
               infoSectionLayoutUpdates := s.infoSectionLayoutUpdates + 1 } := by
  have h2 : updateSizeSkips { s with updateSizeRuns := s.updateSizeRuns + 1 }
      = true := h
  simp only [updateSize, h2, if_true]

theorem updateSize_size_of_not_skips (first_run : Bool) (s : MainWindow)
    (h : s.updateSizeSkips = false) :
    (s.updateSize first_run).size = s.desired := by
  have h2 : updateSizeSkips { s with updateSizeRuns := s.updateSizeRuns + 1 }
      = false := h
  cases first_run <;>
    simp [updateSize, h2, setGeometry, size, alignedRect, QRect.size, desired,
      wanted, player, factor, isPlaying, noVideoSize, sizeFactor]

theorem updateSizeSkips_eq_false (s : MainWindow) (hf : 0 < s.sizeFactor_)
    (hfs : s.fullscreenMode_ = false) (hm : s.maximized = false) :
    s.updateSizeSkips = false := by
  simp [updateSizeSkips, sizeFactor, fullscreenMode, isMaximized, hf, hfs, hm]

theorem updateSize_runs (first_run : Bool) (s : MainWindow) :
    (s.updateSize first_run).updateSizeRuns = s.updateSizeRuns + 1 ∧
    (s.updateSize first_run).eventQueue = s.eventQueue := by
  unfold updateSize
  simp only
  split_ifs <;> exact ⟨rfl, rfl⟩

theorem deliverAll_runs (q : List QueuedCall) (s : MainWindow) :
    (deliverAll q s).updateSizeRuns = s.updateSizeRuns + q.length ∧
    (deliverAll q s).eventQueue = s.eventQueue := by
  induction q generalizing s with
  | nil => exact ⟨rfl, rfl⟩
  | cons c cs ih =>
    cases c
    have h := updateSize_runs false s
    have h2 := ih (deliver QueuedCall.sendUpdateSize s)
    simp only [deliver, sendUpdateSize] at h2
    simp only [deliverAll, deliver, sendUpdateSize, List.length_cons]
    rw [h2.1, h2.2, h.1, h.2]
    exact ⟨by omega, rfl⟩

theorem fireUpdateSize_iterate (n : Nat) (s : MainWindow) :
    fireUpdateSize^[n] s =
      { s with eventQueue :=
          s.eventQueue ++ List.replicate n QueuedCall.sendUpdateSize } := by
  induction n with
  | zero => simp
  | succ k ih =>
    rw [Function.iterate_succ_apply', ih]
    simp [fireUpdateSize, List.replicate_succ', List.append_assoc]

theorem cycle_step (s : MainWindow) (h : s.fullscreenMode_ = false) :
    s.on_actionViewHideMenu_triggered.decorationState_
        = nextState s.decorationState_.toIndex ∧
    s.on_actionViewHideMenu_triggered.fullscreenMode_ = false := by
  simp [on_actionViewHideMenu_triggered, h, fireUpdateSize,
    setUiDecorationState]
  split_ifs <;> simp [h]

theorem cycle_in_fullscreen (s : MainWindow) (h : s.fullscreenMode_ = true) :
    s.on_actionViewHideMenu_triggered = s := by
  simp [on_actionViewHideMenu_triggered, h]

theorem fullscreen_toggled_decorationState (checked : Bool) (s : MainWindow) :
    (s.on_actionViewFullscreen_toggled checked).decorationState_
        = s.decorationState_ ∧
    (s.on_actionViewFullscreen_toggled checked).fullscreenMode_ = checked := by
  cases checked
  · simp only [on_actionViewFullscreen_toggled, setFullscreenMode, showNormal]
    simp only [Bool.false_eq_true, if_false]
    split_ifs <;> exact ⟨rfl, rfl⟩
  · exact ⟨rfl, rfl⟩

theorem setPlaybackSpeed_calls (speed : ℚ) (s : MainWindow) :
    (s.setPlaybackSpeed speed).playbackSpeed_ = max (1 / 8) (min 8 speed) ∧
    (s.setPlaybackSpeed speed).mpvwCalls =
      s.mpvwCalls ++ [MpvCall.setSpeed speed,
                      MpvCall.showMessage (Message.speed speed)] := by
  simp [setPlaybackSpeed, stdMax_eq_max, stdMin_eq_min]

/-- C1: whenever `sizeFactor > 0` and the window is neither fullscreen nor
maximized, `updateSize` gives the window the size
`wanted + (currentWindowSize - currentVideoAreaSize)`, in width and in height,
where `wanted` is the scaled video-area size; and any other such state with the
same `wanted` and the same difference gets the same window size, whatever its
panels' visibility. -/
theorem updateSize_sets_wanted_plus_delta (first_run : Bool) (s : MainWindow)
    (hf : 0 < s.sizeFactor_) (hfs : s.fullscreenMode_ = false)
    (hm : s.maximized = false) :
    (s.updateSize first_run).size.width
        = s.wanted.width + (s.size.width - s.mpvwSize.width) ∧
    (s.updateSize first_run).size.height
        = s.wanted.height + (s.size.height - s.mpvwSize.height) ∧
    ∀ (again : Bool) (t : MainWindow), 0 < t.sizeFactor_ →
      t.fullscreenMode_ = false → t.maximized = false →
      t.wanted = s.wanted → t.size - t.mpvwSize = s.size - s.mpvwSize →
      (t.updateSize again).size = (s.updateSize first_run).size := by
  have key : ∀ (b : Bool) (u : MainWindow), 0 < u.sizeFactor_ →
      u.fullscreenMode_ = false → u.maximized = false →
      (u.updateSize b).size
        = ⟨u.wanted.width + (u.size - u.mpvwSize).width,
           u.wanted.height + (u.size - u.mpvwSize).height⟩ := by
    intro b u h1 h2 h3
    rw [updateSize_size_of_not_skips b u (updateSizeSkips_eq_false u h1 h2 h3)]
    show (⟨_, _⟩ : QSize) = ⟨_, _⟩
    congr 1
    · show u.wanted.width + u.size.width - u.mpvwSize.width
        = u.wanted.width + (u.size.width - u.mpvwSize.width)
      ring
    · show u.wanted.height + u.size.height - u.mpvwSize.height
        = u.wanted.height + (u.size.height - u.mpvwSize.height)
      ring
  refine ⟨?_, ?_, ?_⟩
  · rw [key first_run s hf hfs hm]; rfl
  · rw [key first_run s hf hfs hm]; rfl
  · intro again t h1 h2 h3 hw hd
    rw [key again t h1 h2 h3, key first_run s hf hfs hm, hw, hd]

/-- The statement of C1 at `playingState` (first run), compared with
`playingStateBare`, whose panels are hidden. -/
theorem updateSize_sets_wanted_plus_delta_witness :
    (0 : ℚ) < playingState.sizeFactor_ ∧
    playingState.fullscreenMode_ = false ∧ playingState.maximized = false ∧
    (playingState.updateSize true).size.width
        = playingState.wanted.width
          + (playingState.size.width - playingState.mpvwSize.width) ∧
    (playingState.updateSize true).size.height
        = playingState.wanted.height
          + (playingState.size.height - playingState.mpvwSize.height) ∧
    (playingStateBare.updateSize false).size
        = (playingState.updateSize true).size :=
  have hpos : (0 : ℚ) < playingState.sizeFactor_ := by decide!
  have h := updateSize_sets_wanted_plus_delta true playingState hpos rfl rfl
  ⟨hpos, rfl, rfl, h.1, h.2.1,
    h.2.2 false playingStateBare (by decide!) rfl rfl rfl (by decide)⟩

/-- C2: `updateSize` leaves the window geometry unchanged whenever
`sizeFactor <= 0`, or `fullscreenMode` is true, or the window is maximized,
for either value of `first_run`; all it does then is refresh the layout of the
info section. -/
theorem updateSize_skip_keeps_geometry (first_run : Bool) (s : MainWindow)
    (h : s.sizeFactor_ ≤ 0 ∨ s.fullscreenMode_ = true ∨ s.maximized = true) :
    (s.updateSize first_run).geometry = s.geometry ∧
    (s.updateSize first_run).size = s.size ∧
    s.updateSize first_run =
      { s with updateSizeRuns := s.updateSizeRuns + 1
               infoSectionLayoutUpdates := s.infoSectionLayoutUpdates + 1 } := by
  have hs : s.updateSizeSkips = true := by
    rcases h with h | h | h <;>
      simp [updateSizeSkips, sizeFactor, fullscreenMode, isMaximized, h]
  rw [updateSize_of_skips first_run s hs]
  exact ⟨rfl, rfl, rfl⟩

/-- The statement of C2 at `fullscreenState` (first run). -/
theorem updateSize_skip_keeps_geometry_witness :
    (fullscreenState.sizeFactor_ ≤ 0 ∨ fullscreenState.fullscreenMode_ = true
      ∨ fullscreenState.maximized = true) ∧
    (fullscreenState.updateSize true).geometry = ⟨0, 0, 520, 400⟩ :=
  ⟨Or.inr (Or.inl rfl),
    (updateSize_skip_keeps_geometry true fullscreenState
      (Or.inr (Or.inl rfl))).1⟩

/-- C4: in `updateSize`, when `isPlaying` is false the base size is
`NoVideoSize` and the effective factor is `max(1.0, sizeFactor)` (1.0 for
`sizeFactor` 0.5, 2.0 for `sizeFactor` 2.0); when `isPlaying` is true the base
size is the engine-reported video size and the factor is `sizeFactor`. -/
theorem base_size_and_effective_factor (s : MainWindow) :
    (s.isPlaying_ = false →
      s.player = s.noVideoSize_ ∧ s.factor = max 1 s.sizeFactor_ ∧
      (s.sizeFactor_ = 1 / 2 → s.factor = 1) ∧
      (s.sizeFactor_ = 2 → s.factor = 2)) ∧
    (s.isPlaying_ = true →
      s.player = s.mpvwVideoSize ∧ s.factor = s.sizeFactor_) ∧
    s.wanted
      = ⟨toInt (roundDouble (roundDouble (s.player.width * s.factor) + 1 / 2)),
         toInt
          (roundDouble (roundDouble (s.player.height * s.factor) + 1 / 2))⟩ := by
  refine ⟨?_, ?_, rfl⟩
  · intro hp
    have hfa : s.factor = max 1 s.sizeFactor_ := by
      simp [factor, isPlaying, sizeFactor, hp, stdMax_eq_max]
    refine ⟨by simp [player, isPlaying, noVideoSize, hp], hfa, ?_, ?_⟩
    · intro hz
      rw [hfa, hz]
      norm_num
    · intro hz
      rw [hfa, hz]
      norm_num
  · intro hp
    exact ⟨by simp [player, isPlaying, hp],
      by simp [factor, isPlaying, sizeFactor, hp]⟩

/-- The statement of C4 at `idleHalfState`: idle, size factor 0.5. -/
theorem base_size_and_effective_factor_witness :
    idleHalfState.isPlaying_ = false ∧
    idleHalfState.player = ⟨500, 270⟩ ∧ idleHalfState.factor = 1 :=
  have h := (base_size_and_effective_factor idleHalfState).1 rfl
  ⟨rfl, h.1, h.2.2.1 rfl⟩

/-! ## Decoration state -/

/-- C5: outside fullscreen the cycle action `on_actionViewHideMenu_triggered`
takes `AllDecorations` to `NoMenu`, `NoMenu` to `NoDecorations` and
`NoDecorations` to `AllDecorations`; three consecutive applications give back
the starting decoration state, one or two applications never do. -/
theorem cycle_action_has_period_three (s : MainWindow)
    (h : s.fullscreenMode_ = false) :
    (s.decorationState_ = DecorationState.AllDecorations →
      s.on_actionViewHideMenu_triggered.decorationState_
        = DecorationState.NoMenu) ∧
    (s.decorationState_ = DecorationState.NoMenu →
      s.on_actionViewHideMenu_triggered.decorationState_
        = DecorationState.NoDecorations) ∧
    (s.decorationState_ = DecorationState.NoDecorations →
      s.on_actionViewHideMenu_triggered.decorationState_
        = DecorationState.AllDecorations) ∧
    (on_actionViewHideMenu_triggered^[3] s).decorationState_
        = s.decorationState_ ∧
    (on_actionViewHideMenu_triggered^[1] s).decorationState_
        ≠ s.decorationState_ ∧
    (on_actionViewHideMenu_triggered^[2] s).decorationState_
        ≠ s.decorationState_ := by
  have h1 := cycle_step s h
  have h2 := cycle_step _ h1.2
  have h3 := cycle_step _ h2.2
  simp only [Function.iterate_succ, Function.iterate_zero, Function.comp_apply,
    id_eq]
  rw [h3.1, h2.1, h1.1]
  cases hd : s.decorationState_ <;>
    simp [nextState, DecorationState.toIndex]

/-- The statement of C5 at `startState`. -/
theorem cycle_action_has_period_three_witness :
    startState.fullscreenMode_ = false ∧
    startState.on_actionViewHideMenu_triggered.decorationState_
      = DecorationState.NoMenu ∧
    (on_actionViewHideMenu_triggered^[3] startState).decorationState_
      = DecorationState.AllDecorations :=
  have h := cycle_action_has_period_three startState rfl
  ⟨rfl, h.1 rfl, h.2.2.2.1⟩

/-- C6: for every decoration state `d`, entering fullscreen, triggering the
cycle action any number of times while fullscreen, and leaving fullscreen
leaves `DecorationState` equal to `d` (the cycle actions do nothing at all in
between, and the controller is out of fullscreen mode at the end). -/
theorem fullscreen_round_trip_keeps_decoration (s : MainWindow) (n : Nat) :
    (on_actionViewFullscreen_toggled false
      (on_actionViewHideMenu_triggered^[n]
        (on_actionViewFullscreen_toggled true s))).decorationState_
        = s.decorationState_ ∧
    on_actionViewHideMenu_triggered^[n] (on_actionViewFullscreen_toggled true s)
        = on_actionViewFullscreen_toggled true s ∧
    (on_actionViewFullscreen_toggled false
      (on_actionViewHideMenu_triggered^[n]
        (on_actionViewFullscreen_toggled true s))).fullscreenMode_ = false := by
  have hin := fullscreen_toggled_decorationState true s
  have hfix : on_actionViewHideMenu_triggered^[n]
      (on_actionViewFullscreen_toggled true s)
        = on_actionViewFullscreen_toggled true s :=
    Function.iterate_fixed (cycle_in_fullscreen _ hin.2) n
  have hout := fullscreen_toggled_decorationState false
    (on_actionViewFullscreen_toggled true s)
  rw [hfix]
  exact ⟨hout.1.trans hin.1, rfl, hout.2⟩

/-! ## Playback speed -/

/-- C7: for every input speed, `setPlaybackSpeed` stores
`max(0.125, min(8.0, speed))` in `playbackSpeed`: the stored value lies in
`[0.125, 8.0]`, equals the input when the input is in that range, and is 8.0
for input 16.0 and 0.125 for input 0.01. -/
theorem setPlaybackSpeed_stores_clamped (speed : ℚ) (s : MainWindow) :
    (s.setPlaybackSpeed speed).playbackSpeed_ = max (1 / 8) (min 8 speed) ∧
    1 / 8 ≤ (s.setPlaybackSpeed speed).playbackSpeed_ ∧
    (s.setPlaybackSpeed speed).playbackSpeed_ ≤ 8 ∧
    (1 / 8 ≤ speed → speed ≤ 8 →
      (s.setPlaybackSpeed speed).playbackSpeed_ = speed) ∧
    (s.setPlaybackSpeed 16).playbackSpeed_ = 8 ∧
    (s.setPlaybackSpeed (1 / 100)).playbackSpeed_ = 1 / 8 := by
  have h := fun x => (setPlaybackSpeed_calls x s).1
  refine ⟨h speed, ?_, ?_, ?_, ?_, ?_⟩
  · rw [h speed]
    exact le_max_left _ _
  · rw [h speed]
    exact max_le (by norm_num) (min_le_left _ _)
  · intro h1 h2
    rw [h speed, min_eq_right h2, max_eq_right h1]
  · rw [h 16]
    norm_num
  · rw [h (1 / 100)]
    norm_num

/-- The statement of C7 at input speed 2, which is in range. -/
theorem setPlaybackSpeed_stores_clamped_witness :
    (1 / 8 : ℚ) ≤ 2 ∧ (2 : ℚ) ≤ 8 ∧
    (startState.setPlaybackSpeed 2).playbackSpeed_ = 2 :=
  have h1 : (1 / 8 : ℚ) ≤ 2 := by decide!
  have h2 : (2 : ℚ) ≤ 8 := by decide!
  ⟨h1, h2, (setPlaybackSpeed_stores_clamped 2 startState).2.2.2.1 h1 h2⟩

/-- C8: the code forwards the unclamped speed.  For every input,
`setPlaybackSpeed` passes its argument as it came to `setSpeed` and to the
confirmation message; input 16.0 stores 8.0 but sends 16.0, and the fourth
rate-increase action from speed 1.0 sends the engine 16.0. -/
theorem setPlaybackSpeed_forwards_raw_speed :
    (∀ (speed : ℚ) (s : MainWindow),
      (s.setPlaybackSpeed speed).mpvwCalls =
        s.mpvwCalls ++ [MpvCall.setSpeed speed,
                        MpvCall.showMessage (Message.speed speed)]) ∧
    (startState.setPlaybackSpeed 16).playbackSpeed_ = 8 ∧
    (startState.setPlaybackSpeed 16).mpvwCalls =
      [MpvCall.setSpeed 16, MpvCall.showMessage (Message.speed 16)] ∧
    (on_actionPlayRateIncrease_triggered^[3] startState).playbackSpeed_ = 8 ∧
    (on_actionPlayRateIncrease_triggered^[4] startState).playbackSpeed_ = 8 ∧
    (on_actionPlayRateIncrease_triggered^[4] startState).mpvwCalls.getLast?
      = some (MpvCall.showMessage (Message.speed 16)) ∧
    MpvCall.setSpeed 16
      ∈ (on_actionPlayRateIncrease_triggered^[4] startState).mpvwCalls ∧
    MpvCall.setSpeed (1 / 16)
      ∈ (on_actionPlayRateDecrease_triggered^[4] startState).mpvwCalls := by
  refine ⟨fun speed s => (setPlaybackSpeed_calls speed s).2, ?_, ?_, ?_, ?_, ?_,
    ?_, ?_⟩ <;> decide!

/-! ## Volume -/

/-- C10, as stated, fails for two requests: after two emissions of
`fireUpdateSize` in one turn, draining the queue executes `updateSize` twice,
not once. -/
theorem two_requests_run_updateSize_twice :
    (fireUpdateSize (fireUpdateSize startState)).updateSizeRuns = 0 ∧
    (processEvents (fireUpdateSize (fireUpdateSize startState))).updateSizeRuns
      = 2 ∧
    (processEvents (fireUpdateSize (fireUpdateSize startState))).updateSizeRuns
      ≠ 1 := by
  refine ⟨?_, ?_, ?_⟩ <;> decide!

/-- C10, amended: issuing `n` resize requests (`fireUpdateSize`) within one
event-loop turn executes `updateSize` not at all while they are issued and
exactly `n` times, once per request, when the queue is drained (on top of one
execution per call already pending); the queue is empty afterwards. -/
theorem each_request_runs_updateSize_once (n : Nat) (s : MainWindow) :
    (fireUpdateSize^[n] s).updateSizeRuns = s.updateSizeRuns ∧
    (processEvents (fireUpdateSize^[n] s)).updateSizeRuns
      = s.updateSizeRuns + s.eventQueue.length + n ∧
    (processEvents (fireUpdateSize^[n] s)).eventQueue = [] := by
  rw [fireUpdateSize_iterate]
  refine ⟨rfl, ?_, ?_⟩
  · simp only [processEvents]
    rw [(deliverAll_runs _ _).1]
    simp [Nat.add_assoc]
  · simp only [processEvents]
    rw [(deliverAll_runs _ _).2]

/-! ## Chapters -/

theorem updateSize_keeps_playback (first_run : Bool) (s : MainWindow) :
    (s.updateSize first_run).mpvwCalls = s.mpvwCalls ∧
    (s.updateSize first_run).isPlaying_ = s.isPlaying_ ∧
    (s.updateSize first_run).statusText = s.statusText := by
  unfold updateSize
  simp only
  split_ifs <;> exact ⟨rfl, rfl, rfl⟩

theorem doMpvStopPlayback_effect (s : MainWindow) :
    (s.doMpvStopPlayback false).mpvwCalls
        = s.mpvwCalls ++ [MpvCall.stopPlayback] ∧
    (s.doMpvStopPlayback false).isPlaying_ = false ∧
    (s.doMpvStopPlayback false).statusText = "Stopped" := by
  unfold doMpvStopPlayback
  simp only
  have h := updateSize_keeps_playback false
    (updatePlaybackStatus (setPlaying false
      { s with mpvwCalls := s.mpvwCalls ++ [MpvCall.stopPlayback] }))
  exact ⟨h.1, h.2.1, h.2.2⟩

/-- C11: the next-chapter action requests chapter `current + 1` from the
engine.  When `setChapter` reports failure the controller stops playback: a
stop command follows the request, `isPlaying` becomes false and the status
text becomes `Stopped`.  When `setChapter` succeeds nothing but the request is
added: no stop command is sent and `isPlaying` and the status text are
unchanged.  So a stop command is sent if and only if `setChapter` failed. -/
theorem next_chapter_stops_exactly_on_failure (setChapterResult : Bool)
    (s : MainWindow) :
    (setChapterResult = false →
      (s.on_actionNavigateChaptersNext_triggered setChapterResult).mpvwCalls
        = s.mpvwCalls
            ++ [MpvCall.setChapter (s.mpvwChapter + 1), MpvCall.stopPlayback] ∧
      (s.on_actionNavigateChaptersNext_triggered setChapterResult).isPlaying_
        = false ∧
      (s.on_actionNavigateChaptersNext_triggered setChapterResult).statusText
        = "Stopped") ∧
    (setChapterResult = true →
      s.on_actionNavigateChaptersNext_triggered setChapterResult
        = { s with mpvwCalls :=
              s.mpvwCalls ++ [MpvCall.setChapter (s.mpvwChapter + 1)] } ∧
      (s.on_actionNavigateChaptersNext_triggered setChapterResult).isPlaying_
        = s.isPlaying_ ∧
      (s.on_actionNavigateChaptersNext_triggered setChapterResult).statusText
        = s.statusText) ∧
    (MpvCall.stopPlayback ∈
        ((s.on_actionNavigateChaptersNext_triggered setChapterResult).mpvwCalls
          ).drop s.mpvwCalls.length
      ↔ setChapterResult = false) := by
  cases setChapterResult
  · have h := doMpvStopPlayback_effect
      { s with mpvwCalls :=
          s.mpvwCalls ++ [MpvCall.setChapter (s.mpvwChapter + 1)] }
    have hc : (s.on_actionNavigateChaptersNext_triggered false).mpvwCalls
        = s.mpvwCalls
            ++ [MpvCall.setChapter (s.mpvwChapter + 1), MpvCall.stopPlayback] := by
      simp only [on_actionNavigateChaptersNext_triggered, Bool.not_false,
        if_true]
      rw [h.1]
      simp
    refine ⟨fun _ => ⟨hc, h.2.1, h.2.2⟩, fun h0 => absurd h0 (by simp), ?_⟩
    rw [hc]
    simp
  · refine ⟨fun h0 => absurd h0 (by simp), fun _ => ⟨rfl, rfl, rfl⟩, ?_⟩
    simp [on_actionNavigateChaptersNext_triggered]

/-- The statement of C11 at `chapterState`, chapter 7 while playing, for a
failed request. -/
theorem next_chapter_stops_exactly_on_failure_witness :
    (false = false) ∧
    (chapterState.on_actionNavigateChaptersNext_triggered false).mpvwCalls
      = [MpvCall.setChapter 8, MpvCall.stopPlayback] ∧
    (chapterState.on_actionNavigateChaptersNext_triggered false).isPlaying_
      = false ∧
    (chapterState.on_actionNavigateChaptersNext_triggered false).statusText
      = "Stopped" :=
  ⟨rfl, (next_chapter_stops_exactly_on_failure false chapterState).1 rfl⟩

/-! ## Menu and panels around fullscreen -/

theorem fullscreen_enter_effect (s : MainWindow) :
    s.on_actionViewFullscreen_toggled true =
      { s with fullscreenMode_ := true, fullScreen := true, maximized := false,
               windowVisible := true, menuBarVisible := false,
               controlSectionVisible := false, infoSectionVisible := false } :=
  rfl

theorem fullscreen_leave_effect (s : MainWindow) :
    s.on_actionViewFullscreen_toggled false =
      { s with fullscreenMode_ := false, fullScreen := false,
               maximized := false, windowVisible := true,
               menuBarVisible := (s.actionViewHideMenuChecked || s.menuBarVisible),
               controlSectionVisible := true, infoSectionVisible := true } := by
  simp only [on_actionViewFullscreen_toggled, setFullscreenMode, showNormal,
    Bool.false_eq_true, if_false]
  cases h : s.actionViewHideMenuChecked <;> simp [h]

/-- C12: after entering fullscreen and leaving it again (with any number of
cycle actions in between), the menu bar is visible exactly when the hide-menu
toggle `actionViewHideMenu` is checked, the control and info sections are
shown, and the seekbar, the control bar, the information panel and the status
bar have the visibility they had before entering; the toggle itself is
unchanged.  It is not a fixed default: of two start states that differ in the
toggle alone, one ends with the menu bar visible and the other with it
hidden. -/
theorem fullscreen_round_trip_restores_by_toggles (s : MainWindow) (n : Nat) :
    ((on_actionViewFullscreen_toggled false
        (on_actionViewHideMenu_triggered^[n]
          (on_actionViewFullscreen_toggled true s))).menuBarVisible = true
      ↔ s.actionViewHideMenuChecked = true) ∧
    (on_actionViewFullscreen_toggled false
        (on_actionViewHideMenu_triggered^[n]
          (on_actionViewFullscreen_toggled true s))).actionViewHideMenuChecked
      = s.actionViewHideMenuChecked ∧
    (on_actionViewFullscreen_toggled false
        (on_actionViewHideMenu_triggered^[n]
          (on_actionViewFullscreen_toggled true s))).controlSectionVisible
      = true ∧
    (on_actionViewFullscreen_toggled false
        (on_actionViewHideMenu_triggered^[n]
          (on_actionViewFullscreen_toggled true s))).infoSectionVisible
      = true ∧
    (on_actionViewFullscreen_toggled false
        (on_actionViewHideMenu_triggered^[n]
          (on_actionViewFullscreen_toggled true s))).seekbarVisible
      = s.seekbarVisible ∧
    (on_actionViewFullscreen_toggled false
        (on_actionViewHideMenu_triggered^[n]
          (on_actionViewFullscreen_toggled true s))).controlbarVisible
      = s.controlbarVisible ∧
    (on_actionViewFullscreen_toggled false
        (on_actionViewHideMenu_triggered^[n]
          (on_actionViewFullscreen_toggled true s))).infoStatsVisible
      = s.infoStatsVisible ∧
    (on_actionViewFullscreen_toggled false
        (on_actionViewHideMenu_triggered^[n]
          (on_actionViewFullscreen_toggled true s))).statusbarVisible
      = s.statusbarVisible ∧
    (on_actionViewFullscreen_toggled false
        (on_actionViewFullscreen_toggled true
          (startStateWith true true))).menuBarVisible = true ∧
    (on_actionViewFullscreen_toggled false
        (on_actionViewFullscreen_toggled true
          (startStateWith true false))).menuBarVisible = false := by
  have hfix : on_actionViewHideMenu_triggered^[n]
      (on_actionViewFullscreen_toggled true s)
        = on_actionViewFullscreen_toggled true s :=
    Function.iterate_fixed (cycle_in_fullscreen _ rfl) n
  rw [hfix, fullscreen_leave_effect, fullscreen_enter_effect]
  refine ⟨?_, rfl, rfl, rfl, rfl, rfl, rfl, rfl, ?_, ?_⟩
  · simp
  · decide
  · decide

/-! ## Menu bar and decoration state -/

theorem actionViewHideSeekbar_setChecked_chrome (b : Bool) (s : MainWindow) :
    (s.actionViewHideSeekbar_setChecked b).menuBarVisible = s.menuBarVisible ∧
    (s.actionViewHideSeekbar_setChecked b).decorationState_
        = s.decorationState_ ∧
    (s.actionViewHideSeekbar_setChecked b).fullscreenMode_
        = s.fullscreenMode_ := by
  unfold actionViewHideSeekbar_setChecked on_actionViewHideSeekbar_toggled
    fireUpdateSize
  split_ifs <;> exact ⟨rfl, rfl, rfl⟩

theorem actionViewHideControls_setChecked_chrome (b : Bool) (s : MainWindow) :
    (s.actionViewHideControls_setChecked b).menuBarVisible = s.menuBarVisible ∧
    (s.actionViewHideControls_setChecked b).decorationState_
        = s.decorationState_ ∧
    (s.actionViewHideControls_setChecked b).fullscreenMode_
        = s.fullscreenMode_ := by
  unfold actionViewHideControls_setChecked on_actionViewHideControls_toggled
    fireUpdateSize
  split_ifs <;> exact ⟨rfl, rfl, rfl⟩

theorem actionViewHideInformation_setChecked_chrome (b : Bool) (s : MainWindow) :
    (s.actionViewHideInformation_setChecked b).menuBarVisible = s.menuBarVisible ∧
    (s.actionViewHideInformation_setChecked b).decorationState_
        = s.decorationState_ ∧
    (s.actionViewHideInformation_setChecked b).fullscreenMode_
        = s.fullscreenMode_ := by
  unfold actionViewHideInformation_setChecked on_actionViewHideInformation_toggled
    fireUpdateSize
  split_ifs <;> exact ⟨rfl, rfl, rfl⟩

theorem actionViewHideStatistics_setChecked_chrome (b : Bool) (s : MainWindow) :
    (s.actionViewHideStatistics_setChecked b).menuBarVisible = s.menuBarVisible ∧
    (s.actionViewHideStatistics_setChecked b).decorationState_
        = s.decorationState_ ∧
    (s.actionViewHideStatistics_setChecked b).fullscreenMode_
        = s.fullscreenMode_ := by
  unfold actionViewHideStatistics_setChecked on_actionViewHideStatistics_toggled
    fireUpdateSize
  split_ifs <;> exact ⟨rfl, rfl, rfl⟩

theorem actionViewHideStatus_setChecked_chrome (b : Bool) (s : MainWindow) :
    (s.actionViewHideStatus_setChecked b).menuBarVisible = s.menuBarVisible ∧
    (s.actionViewHideStatus_setChecked b).decorationState_
        = s.decorationState_ ∧
    (s.actionViewHideStatus_setChecked b).fullscreenMode_
        = s.fullscreenMode_ := by
  unfold actionViewHideStatus_setChecked on_actionViewHideStatus_toggled
    fireUpdateSize
  split_ifs <;> exact ⟨rfl, rfl, rfl⟩

theorem actionViewHideSubresync_setChecked_chrome (b : Bool) (s : MainWindow) :
    (s.actionViewHideSubresync_setChecked b).menuBarVisible = s.menuBarVisible ∧
    (s.actionViewHideSubresync_setChecked b).decorationState_
        = s.decorationState_ ∧
    (s.actionViewHideSubresync_setChecked b).fullscreenMode_
        = s.fullscreenMode_ := by
  unfold actionViewHideSubresync_setChecked on_actionViewHideSubresync_toggled
    fireUpdateSize
  split_ifs <;> exact ⟨rfl, rfl, rfl⟩

theorem actionViewHideCapture_setChecked_chrome (b : Bool) (s : MainWindow) :
    (s.actionViewHideCapture_setChecked b).menuBarVisible = s.menuBarVisible ∧
    (s.actionViewHideCapture_setChecked b).decorationState_
        = s.decorationState_ ∧
    (s.actionViewHideCapture_setChecked b).fullscreenMode_
        = s.fullscreenMode_ := by
  unfold actionViewHideCapture_setChecked on_actionViewHideCapture_toggled
    fireUpdateSize
  split_ifs <;> exact ⟨rfl, rfl, rfl⟩

theorem actionViewHideNavigation_setChecked_chrome (b : Bool) (s : MainWindow) :
    (s.actionViewHideNavigation_setChecked b).menuBarVisible = s.menuBarVisible ∧
    (s.actionViewHideNavigation_setChecked b).decorationState_
        = s.decorationState_ ∧
    (s.actionViewHideNavigation_setChecked b).fullscreenMode_
        = s.fullscreenMode_ := by
  unfold actionViewHideNavigation_setChecked on_actionViewHideNavigation_toggled
    fireUpdateSize
  split_ifs <;> exact ⟨rfl, rfl, rfl⟩

theorem actionViewHideMenu_setChecked_chrome (b : Bool) (s : MainWindow) :
    (s.actionViewHideMenu_setChecked b).menuBarVisible = s.menuBarVisible ∧
    (s.actionViewHideMenu_setChecked b).decorationState_
        = s.decorationState_ ∧
    (s.actionViewHideMenu_setChecked b).fullscreenMode_
        = s.fullscreenMode_ := by
  unfold actionViewHideMenu_setChecked
  split_ifs <;> exact ⟨rfl, rfl, rfl⟩

theorem setUiDecorationState_chrome (state : DecorationState)
    (s : MainWindow) :
    ((s.setUiDecorationState state).menuBarVisible = true
      ↔ state = DecorationState.AllDecorations) ∧
    (s.setUiDecorationState state).decorationState_ = state ∧
    (s.setUiDecorationState state).fullscreenMode_ = s.fullscreenMode_ := by
  unfold setUiDecorationState
  split_ifs with h <;> simp [h]

theorem preset_chrome (a : ViewAction) (s : MainWindow)
    (ha : a = ViewAction.presetMinimal ∨ a = ViewAction.presetCompact
      ∨ a = ViewAction.presetNormal) :
    ((perform a s).menuBarVisible = true
      ↔ (perform a s).decorationState_ = DecorationState.AllDecorations) := by
  rcases ha with h | h | h <;> subst h
  · simp only [perform, on_actionViewPresetsMinimal_triggered]
    rw [(actionViewHideNavigation_setChecked_chrome _ _).1,
      (actionViewHideNavigation_setChecked_chrome _ _).2.1,
      (actionViewHideCapture_setChecked_chrome _ _).1,
      (actionViewHideCapture_setChecked_chrome _ _).2.1,
      (actionViewHideSubresync_setChecked_chrome _ _).1,
      (actionViewHideSubresync_setChecked_chrome _ _).2.1,
      (actionViewHideStatus_setChecked_chrome _ _).1,
      (actionViewHideStatus_setChecked_chrome _ _).2.1,
      (actionViewHideStatistics_setChecked_chrome _ _).1,
      (actionViewHideStatistics_setChecked_chrome _ _).2.1,
      (actionViewHideInformation_setChecked_chrome _ _).1,
      (actionViewHideInformation_setChecked_chrome _ _).2.1,
      (actionViewHideControls_setChecked_chrome _ _).1,
      (actionViewHideControls_setChecked_chrome _ _).2.1,
      (actionViewHideSeekbar_setChecked_chrome _ _).1,
      (actionViewHideSeekbar_setChecked_chrome _ _).2.1,
      (setUiDecorationState_chrome _ _).2.1]
    exact (setUiDecorationState_chrome _ _).1
  · simp only [perform, on_actionViewPresetsCompact_triggered]
    rw [(actionViewHideNavigation_setChecked_chrome _ _).1,
      (actionViewHideNavigation_setChecked_chrome _ _).2.1,
      (actionViewHideCapture_setChecked_chrome _ _).1,
      (actionViewHideCapture_setChecked_chrome _ _).2.1,
      (actionViewHideSubresync_setChecked_chrome _ _).1,
      (actionViewHideSubresync_setChecked_chrome _ _).2.1,
      (actionViewHideStatus_setChecked_chrome _ _).1,
      (actionViewHideStatus_setChecked_chrome _ _).2.1,
      (actionViewHideStatistics_setChecked_chrome _ _).1,
      (actionViewHideStatistics_setChecked_chrome _ _).2.1,
      (actionViewHideInformation_setChecked_chrome _ _).1,
      (actionViewHideInformation_setChecked_chrome _ _).2.1,
      (actionViewHideControls_setChecked_chrome _ _).1,
      (actionViewHideControls_setChecked_chrome _ _).2.1,
      (actionViewHideSeekbar_setChecked_chrome _ _).1,
      (actionViewHideSeekbar_setChecked_chrome _ _).2.1,
      (actionViewHideMenu_setChecked_chrome _ _).1,
      (actionViewHideMenu_setChecked_chrome _ _).2.1,
      (setUiDecorationState_chrome _ _).2.1]
    exact (setUiDecorationState_chrome _ _).1
  · simp only [perform, on_actionViewPresetsNormal_triggered]
    rw [(actionViewHideNavigation_setChecked_chrome _ _).1,
      (actionViewHideNavigation_setChecked_chrome _ _).2.1,
      (actionViewHideCapture_setChecked_chrome _ _).1,
      (actionViewHideCapture_setChecked_chrome _ _).2.1,
      (actionViewHideSubresync_setChecked_chrome _ _).1,
      (actionViewHideSubresync_setChecked_chrome _ _).2.1,
      (actionViewHideStatus_setChecked_chrome _ _).1,
      (actionViewHideStatus_setChecked_chrome _ _).2.1,
      (actionViewHideStatistics_setChecked_chrome _ _).1,
      (actionViewHideStatistics_setChecked_chrome _ _).2.1,
      (actionViewHideInformation_setChecked_chrome _ _).1,
      (actionViewHideInformation_setChecked_chrome _ _).2.1,
      (actionViewHideControls_setChecked_chrome _ _).1,
      (actionViewHideControls_setChecked_chrome _ _).2.1,
      (actionViewHideSeekbar_setChecked_chrome _ _).1,
      (actionViewHideSeekbar_setChecked_chrome _ _).2.1,
      (actionViewHideMenu_setChecked_chrome _ _).1,
      (actionViewHideMenu_setChecked_chrome _ _).2.1,
      (setUiDecorationState_chrome _ _).2.1]
    exact (setUiDecorationState_chrome _ _).1

theorem cycle_chrome (s : MainWindow)
    (h : (perform ViewAction.cycle s).fullscreenMode_ = false) :
    ((perform ViewAction.cycle s).menuBarVisible = true
      ↔ (perform ViewAction.cycle s).decorationState_
          = DecorationState.AllDecorations) := by
  cases hfs : s.fullscreenMode_
  · simp only [perform, on_actionViewHideMenu_triggered, hfs,
      Bool.false_eq_true, if_false, fireUpdateSize]
    rw [(setUiDecorationState_chrome _ _).2.1]
    exact (setUiDecorationState_chrome _ _).1
  · have e : perform ViewAction.cycle s = s := cycle_in_fullscreen s hfs
    rw [e, hfs] at h
    exact absurd h (by simp)

theorem performAll_append (xs ys : List ViewAction) (s : MainWindow) :
    performAll (xs ++ ys) s = performAll ys (performAll xs s) := by
  induction xs generalizing s with
  | nil => rfl
  | cons a as ih => exact ih (perform a s)

/-- C13, as stated, fails right after leaving fullscreen: from `startState`
the Compact preset, entering fullscreen and leaving it end outside fullscreen
mode in `NoDecorations` with the menu bar visible.  Whatever the form file
sets for the hide-menu action (checkable or not, checked or not), some
sequence of the actions ends outside fullscreen mode with the menu bar
visible in another state than `AllDecorations`, or hidden in
`AllDecorations`. -/
theorem menu_bar_after_fullscreen_ignores_decoration :
    (performAll [ViewAction.presetCompact, ViewAction.fullscreen true,
        ViewAction.fullscreen false] startState).fullscreenMode_ = false ∧
    (performAll [ViewAction.presetCompact, ViewAction.fullscreen true,
        ViewAction.fullscreen false] startState).decorationState_
      = DecorationState.NoDecorations ∧
    (performAll [ViewAction.presetCompact, ViewAction.fullscreen true,
        ViewAction.fullscreen false] startState).menuBarVisible = true ∧
    (performAll [ViewAction.fullscreen true, ViewAction.fullscreen false]
        (startStateWith false false)).fullscreenMode_ = false ∧
    (performAll [ViewAction.fullscreen true, ViewAction.fullscreen false]
        (startStateWith false false)).decorationState_
      = DecorationState.AllDecorations ∧
    (performAll [ViewAction.fullscreen true, ViewAction.fullscreen false]
        (startStateWith false false)).menuBarVisible = false ∧
    ∀ checkable checked : Bool, ∃ actions : List ViewAction,
      (performAll actions (startStateWith checkable checked)).fullscreenMode_
        = false ∧
      ¬ ((performAll actions (startStateWith checkable checked)).menuBarVisible
            = true
          ↔ (performAll actions
              (startStateWith checkable checked)).decorationState_
            = DecorationState.AllDecorations) := by
  refine ⟨by decide, by decide, by decide, by decide, by decide, by decide, ?_⟩
  intro checkable checked
  cases checkable
  · cases checked
    · exact ⟨[ViewAction.fullscreen true, ViewAction.fullscreen false],
        by decide, by decide⟩
    · exact ⟨[ViewAction.cycle, ViewAction.fullscreen true,
        ViewAction.fullscreen false], by decide, by decide⟩
  · cases checked <;>
      exact ⟨[ViewAction.presetCompact, ViewAction.fullscreen true,
        ViewAction.fullscreen false], by decide, by decide⟩

/-- C13, amended: the menu bar is visible only in `AllDecorations` as long as
the most recent chrome action is not the fullscreen toggle.  After any
sequence of cycle actions, presets and fullscreen toggles that ends with a
cycle action or a preset, whenever the window is not in fullscreen mode the
menu bar is visible if and only if `DecorationState` is `AllDecorations`; the
initial state has this property too.  Entering and leaving fullscreen from
there keeps `DecorationState` and makes the menu bar visible exactly when the
hide-menu toggle is checked. -/
theorem menu_bar_follows_last_applied_decoration (before : List ViewAction)
    (a : ViewAction) (s : MainWindow) (ha : a.isDecoration = true)
    (hfs : (performAll (before ++ [a]) s).fullscreenMode_ = false) :
    ((performAll (before ++ [a]) s).menuBarVisible = true
      ↔ (performAll (before ++ [a]) s).decorationState_
          = DecorationState.AllDecorations) ∧
    (∀ checkable checked : Bool,
      (startStateWith checkable checked).fullscreenMode_ = false ∧
      ((startStateWith checkable checked).menuBarVisible = true
        ↔ (startStateWith checkable checked).decorationState_
            = DecorationState.AllDecorations)) ∧
    (performAll (before ++ [a, ViewAction.fullscreen true,
        ViewAction.fullscreen false]) s).decorationState_
      = (performAll (before ++ [a]) s).decorationState_ ∧
    (performAll (before ++ [a, ViewAction.fullscreen true,
        ViewAction.fullscreen false]) s).fullscreenMode_ = false ∧
    ((performAll (before ++ [a, ViewAction.fullscreen true,
        ViewAction.fullscreen false]) s).menuBarVisible = true
      ↔ (performAll (before ++ [a]) s).actionViewHideMenuChecked = true) := by
  have e1 : performAll (before ++ [a]) s
      = perform a (performAll before s) := by
    rw [performAll_append]
    rfl
  have e2 : performAll (before ++ [a, ViewAction.fullscreen true,
      ViewAction.fullscreen false]) s
      = on_actionViewFullscreen_toggled false
          (on_actionViewFullscreen_toggled true
            (perform a (performAll before s))) := by
    rw [performAll_append]
    rfl
  rw [e1] at hfs
  rw [e1, e2, fullscreen_leave_effect, fullscreen_enter_effect]
  refine ⟨?_, ?_, rfl, rfl, ?_⟩
  · cases a with
    | cycle => exact cycle_chrome _ hfs
    | presetMinimal => exact preset_chrome _ _ (Or.inl rfl)
    | presetCompact => exact preset_chrome _ _ (Or.inr (Or.inl rfl))
    | presetNormal => exact preset_chrome _ _ (Or.inr (Or.inr rfl))
    | fullscreen checked => exact absurd ha (by simp [ViewAction.isDecoration])
  · intro checkable checked
    cases checkable <;> cases checked <;> exact ⟨rfl, by decide⟩
  · simp

/-- The amended statement of C13 at `startState`, for the Compact preset
performed after a fullscreen round trip. -/
theorem menu_bar_follows_last_applied_decoration_witness :
    ViewAction.presetCompact.isDecoration = true ∧
    (performAll ([ViewAction.fullscreen true, ViewAction.fullscreen false]
        ++ [ViewAction.presetCompact]) startState).fullscreenMode_ = false ∧
    ((performAll ([ViewAction.fullscreen true, ViewAction.fullscreen false]
        ++ [ViewAction.presetCompact]) startState).menuBarVisible = true
      ↔ (performAll ([ViewAction.fullscreen true, ViewAction.fullscreen false]
          ++ [ViewAction.presetCompact]) startState).decorationState_
          = DecorationState.AllDecorations) :=
  ⟨rfl, rfl,
    (menu_bar_follows_last_applied_decoration
      [ViewAction.fullscreen true, ViewAction.fullscreen false]
      ViewAction.presetCompact startState rfl rfl).1⟩

/-! ## Time display -/

theorem dateMillis_of_count_nonneg (time : ℚ)
    (h0 : 0 ≤ ⌊dateCount time⌋) (h1 : ⌊dateCount time⌋ < 2 ^ 31) :
    dateMillis time = some ⌊dateCount time⌋ := by
  have hx0 : 0 ≤ dateCount time := Int.floor_nonneg.mp h0
  have hx1 : dateCount time < 2 ^ 31 := by
    have := Int.floor_lt.mp h1
    exact_mod_cast this
  unfold dateMillis
  rw [toIntOpt_eq_some _ (by linarith) hx1, toInt_of_nonneg _ hx0]
  simp only [Option.map_some']
  rw [if_neg (by omega)]

theorem dateMillis_of_negative (time : ℚ)
    (h : ⌊time * 1000 + 1 / 2⌋ < 0) (hr : -(2 ^ 31) - 1 < dateCount time) :
    dateMillis time = some 0 := by
  have hy : time * 1000 + 1 / 2 < 0 := by
    have := Int.floor_lt.mp h
    exact_mod_cast this
  have hp : roundDouble (time * 1000) ≤ -(1 / 2) :=
    roundDouble_le_neg_half _ (by linarith)
  have hc : dateCount time ≤ 0 := roundDouble_nonpos _ (by linarith)
  have ht := toInt_nonpos _ hc
  unfold dateMillis
  rw [toIntOpt_eq_some _ hr (by linarith)]
  simp only [Option.map_some']
  split_ifs with h2
  · rfl
  · have : toInt (dateCount time) = 0 := by omega
    rw [this]

theorem fieldsOfMillis_spec (t : Int) (h0 : 0 ≤ t) :
    (fieldsOfMillis t).hr * 3600000 + (fieldsOfMillis t).mn * 60000
        + (fieldsOfMillis t).se * 1000 + (fieldsOfMillis t).fr = t ∧
    0 ≤ (fieldsOfMillis t).hr ∧
    0 ≤ (fieldsOfMillis t).mn ∧ (fieldsOfMillis t).mn < 60 ∧
    0 ≤ (fieldsOfMillis t).se ∧ (fieldsOfMillis t).se < 60 ∧
    0 ≤ (fieldsOfMillis t).fr ∧ (fieldsOfMillis t).fr < 1000 := by
  have e1 : Int.tdiv t 3600000 = t / 3600000 :=
    Int.tdiv_eq_ediv h0 (by decide)
  have e2 : Int.tdiv t 60000 = t / 60000 := Int.tdiv_eq_ediv h0 (by decide)
  have e3 : Int.tmod (t / 60000) 60 = t / 60000 % 60 :=
    Int.tmod_eq_emod (Int.ediv_nonneg h0 (by decide)) (by decide)
  have e4 : Int.tmod t 60000 = t % 60000 := Int.tmod_eq_emod h0 (by decide)
  have e5 : Int.tdiv (t % 60000) 1000 = t % 60000 / 1000 :=
    Int.tdiv_eq_ediv (Int.emod_nonneg _ (by decide)) (by decide)
  have e6 : Int.tmod t 1000 = t % 1000 := Int.tmod_eq_emod h0 (by decide)
  simp only [fieldsOfMillis, e1, e2, e3, e4, e5, e6]
  refine ⟨by omega, by omega, by omega, by omega, by omega, by omega,
    by omega, by omega⟩

theorem argText_width_two :
    ∀ n : Nat, n < 60 → (argText (number (n : Int)) 2 '0').length = 2 := by
  decide!

theorem argText_width_three :
    ∀ n : Nat, n < 1000 → (argText (number (n : Int)) 3 '0').length = 3 := by
  decide!

theorem argText_length_of_bound (k : Int) (w b : Nat) (h0 : 0 ≤ k)
    (hb : k < b)
    (hall : ∀ n : Nat, n < b → (argText (number (n : Int)) w '0').length = w) :
    (argText (number k) w '0').length = w := by
  obtain ⟨n, rfl⟩ := Int.eq_ofNat_of_zero_le h0
  exact hall n (by exact_mod_cast hb)

/-- C14, as stated, fails where the binary64 product is rounded.  At the
`double` 1.0005 the millisecond count `floor(time * 1000 + 0.5)` is 1000,
non-negative and within an `int`, but the product `time * 1000` rounds up to
1000.5, the code's `t` is 1001 and the result is `0:00:01.001`: the fields
add up to 1001, not to 1000.  At minus ten thousand million seconds the
millisecond count is negative, but it is outside the range of `int`, the
conversion is undefined and there is no result. -/
theorem toDateFormat_count_differs_from_exact :
    roundDouble (roundDouble (10005 / 10000)) = roundDouble (10005 / 10000) ∧
    0 ≤ ⌊roundDouble (10005 / 10000) * 1000 + 1 / 2⌋ ∧
    ⌊roundDouble (10005 / 10000) * 1000 + 1 / 2⌋ < 2 ^ 31 ∧
    ⌊roundDouble (10005 / 10000) * 1000 + 1 / 2⌋ = 1000 ∧
    dateFields (roundDouble (10005 / 10000)) = some ⟨0, 0, 1, 1⟩ ∧
    toDateFormat (roundDouble (10005 / 10000)) = some "0:00:01.001" ∧
    (0 : Int) * 3600000 + 0 * 60000 + 1 * 1000 + 1
      ≠ ⌊roundDouble (10005 / 10000) * 1000 + 1 / 2⌋ ∧
    roundDouble (-(10 ^ 10)) = -(10 ^ 10) ∧
    ⌊(-(10 ^ 10) : ℚ) * 1000 + 1 / 2⌋ < 0 ∧
    toDateFormat (-(10 ^ 10)) = none := by
  refine ⟨?_, ?_, ?_, ?_, ?_, ?_, ?_, ?_, ?_, ?_⟩ <;> decide!

/-- C14, amended: `toDateFormat` decomposes exactly the millisecond count it
computes.  Let `t` be the integer part of `time * 1000 + 0.5` as evaluated in
binary64 (the product rounded, then the sum rounded).  When `t` is
non-negative and fits in an `int`, the fields `hr`, `mn`, `se`, `fr` satisfy
`hr * 3600000 + mn * 60000 + se * 1000 + fr = t` with `mn < 60`, `se < 60`
and `fr < 1000` (none negative), and the result is `hr`, `:`, `mn` padded
with zeros to 2 characters, `:`, `se` padded to 2, `.`, `fr` padded to 3 (the
padded fields have exactly 2, 2 and 3 characters).  This `t` is
`floor(time * 1000 + 0.5)` whenever the product and the sum are binary64
numbers.  When the millisecond count `floor(time * 1000 + 0.5)` is negative
and the evaluated value is above `-2^31 - 1`, so that the conversion is
defined, the result is `0:00:00.000`. -/
theorem toDateFormat_decomposes_time (time : ℚ) :
    (0 ≤ ⌊dateCount time⌋ → ⌊dateCount time⌋ < 2 ^ 31 →
      dateFields time = some (fieldsOfMillis ⌊dateCount time⌋) ∧
      (fieldsOfMillis ⌊dateCount time⌋).hr * 3600000
          + (fieldsOfMillis ⌊dateCount time⌋).mn * 60000
          + (fieldsOfMillis ⌊dateCount time⌋).se * 1000
          + (fieldsOfMillis ⌊dateCount time⌋).fr
        = ⌊dateCount time⌋ ∧
      0 ≤ (fieldsOfMillis ⌊dateCount time⌋).hr ∧
      0 ≤ (fieldsOfMillis ⌊dateCount time⌋).mn ∧
      (fieldsOfMillis ⌊dateCount time⌋).mn < 60 ∧
      0 ≤ (fieldsOfMillis ⌊dateCount time⌋).se ∧
      (fieldsOfMillis ⌊dateCount time⌋).se < 60 ∧
      0 ≤ (fieldsOfMillis ⌊dateCount time⌋).fr ∧
      (fieldsOfMillis ⌊dateCount time⌋).fr < 1000 ∧
      toDateFormat time
        = some (number (fieldsOfMillis ⌊dateCount time⌋).hr ++ ":"
          ++ argText (number (fieldsOfMillis ⌊dateCount time⌋).mn) 2 '0' ++ ":"
          ++ argText (number (fieldsOfMillis ⌊dateCount time⌋).se) 2 '0' ++ "."
          ++ argText (number (fieldsOfMillis ⌊dateCount time⌋).fr) 3 '0') ∧
      (argText (number (fieldsOfMillis ⌊dateCount time⌋).mn) 2 '0').length
        = 2 ∧
      (argText (number (fieldsOfMillis ⌊dateCount time⌋).se) 2 '0').length
        = 2 ∧
      (argText (number (fieldsOfMillis ⌊dateCount time⌋).fr) 3 '0').length
        = 3) ∧
    (roundDouble (time * 1000) = time * 1000 →
      roundDouble (time * 1000 + 1 / 2) = time * 1000 + 1 / 2 →
      ⌊dateCount time⌋ = ⌊time * 1000 + 1 / 2⌋) ∧
    (⌊time * 1000 + 1 / 2⌋ < 0 → -(2 ^ 31) - 1 < dateCount time →
      toDateFormat time = some "0:00:00.000") := by
  refine ⟨?_, ?_, ?_⟩
  · intro h0 h1
    have hm := dateMillis_of_count_nonneg time h0 h1
    have hf := fieldsOfMillis_spec _ h0
    have hd : dateFields time = some (fieldsOfMillis ⌊dateCount time⌋) := by
      unfold dateFields
      rw [hm]
      rfl
    refine ⟨hd, hf.1, hf.2.1, hf.2.2.1, hf.2.2.2.1, hf.2.2.2.2.1,
      hf.2.2.2.2.2.1, hf.2.2.2.2.2.2.1, hf.2.2.2.2.2.2.2, ?_,
      argText_length_of_bound _ 2 60 hf.2.2.1 hf.2.2.2.1 argText_width_two,
      argText_length_of_bound _ 2 60 hf.2.2.2.2.1 hf.2.2.2.2.2.1
        argText_width_two,
      argText_length_of_bound _ 3 1000 hf.2.2.2.2.2.2.1 hf.2.2.2.2.2.2.2
        argText_width_three⟩
    unfold toDateFormat
    rw [hd]
    rfl
  · intro hp hs
    unfold dateCount
    rw [hp, hs]
  · intro hneg hr
    have hm := dateMillis_of_negative time hneg hr
    unfold toDateFormat dateFields
    rw [hm]
    decide

/-- The amended statement of C14 at the `double` 3723.0045: the evaluated
count is 3723005, one hour, two minutes, three seconds and five
milliseconds. -/
theorem toDateFormat_decomposes_time_witness :
    (0 : Int) ≤ ⌊dateCount (roundDouble (37230045 / 10000))⌋ ∧
    ⌊dateCount (roundDouble (37230045 / 10000))⌋ < 2 ^ 31 ∧
    ⌊dateCount (roundDouble (37230045 / 10000))⌋ = 3723005 ∧
    dateFields (roundDouble (37230045 / 10000)) = some ⟨1, 2, 3, 5⟩ ∧
    (fieldsOfMillis ⌊dateCount (roundDouble (37230045 / 10000))⌋).hr * 3600000
        + (fieldsOfMillis ⌊dateCount (roundDouble (37230045 / 10000))⌋).mn
          * 60000
        + (fieldsOfMillis ⌊dateCount (roundDouble (37230045 / 10000))⌋).se
          * 1000
        + (fieldsOfMillis ⌊dateCount (roundDouble (37230045 / 10000))⌋).fr
      = ⌊dateCount (roundDouble (37230045 / 10000))⌋ ∧
    toDateFormat (roundDouble (37230045 / 10000)) = some "1:02:03.005" :=
  have h0 : (0 : Int) ≤ ⌊dateCount (roundDouble (37230045 / 10000))⌋ := by
    decide!
  have h1 : ⌊dateCount (roundDouble (37230045 / 10000))⌋ < 2 ^ 31 := by
    decide!
  ⟨h0, h1, by decide!, by decide!,
    ((toDateFormat_decomposes_time (roundDouble (37230045 / 10000))).1
      h0 h1).2.1,
    by decide!⟩

end MainWindow

end MpcQt
